import Mathlib

/-!
Verification development for the OpenHome infrastructure-adapter plugins
(Proxmox VE, Proxmox Backup Server, WHM/cPanel).

The Python sources are shallowly embedded: JSON values are an inductive
type with rational numbers standing for Python's int/float values, the
HTTP transport is an oracle (the list of successful response bodies, in
request order), and each operation function returns the pair of its
result (an `Except` mirroring Python exceptions) and the list of
requests it issued.  Side conditions of Python's dynamic semantics
(`dict.get` on a non-dict raises AttributeError, iteration over `None`
raises TypeError, `int("abc")` raises ValueError, string/dict iteration
yields characters/keys, and so on) are modelled explicitly.
-/

/-- JSON values, with Python ints/floats collapsed into `ℚ`. -/
inductive Json where
  | null
  | bool (b : Bool)
  | num (q : ℚ)
  | str (s : String)
  | arr (xs : List Json)
  | obj (kvs : List (String × Json))

/-- Python exception classes observable from the embedded code. -/
inductive PyErr where
  | valueError (msg : String)
  | typeError (msg : String)
  | attributeError (msg : String)
  | zeroDivisionError
  | indexError
  | keyError
deriving DecidableEq

/-- An outbound HTTP request as issued by `_make_api_request`. -/
structure Request where
  endpoint : String
  params : List (String × Json) := []
  method : String := "GET"
  body : Option (List (String × Json)) := none

/-- Result of an operation function: the Python return value or the
exception raised, together with the requests sent to the transport. -/
abbrev OpOut := Except PyErr Json × List Request

def isDict : Json → Bool
  | .obj _ => true
  | _ => false

def isList : Json → Bool
  | .arr _ => true
  | _ => false

/-- Key lookup on a JSON object (`None`-like for everything else). -/
def Json.lookup : Json → String → Option Json
  | .obj kvs, k => kvs.lookup k
  | _, _ => none

/-- Python `d.get(k, default)` at call sites where `d` is known to be a
dict (guarded by an `isinstance` check or a prior default). -/
def jget (j : Json) (k : String) (d : Json) : Json :=
  (j.lookup k).getD d

/-- Python `d.get(k, default)` on an arbitrary value: raises
AttributeError when `d` is not a dict. -/
def pyGet (j : Json) (k : String) (d : Json) : Except PyErr Json :=
  match j with
  | .obj kvs => .ok ((kvs.lookup k).getD d)
  | _ => .error (.attributeError "object has no attribute get")

/-- Python `args.get(k, default)` on an argument mapping. -/
def dget (args : List (String × Json)) (k : String) (d : Json) : Json :=
  (args.lookup k).getD d

/-- ASCII lower-casing of one character (Python `str.lower` on the
ASCII command names used here). -/
def pyCharLower (c : Char) : Char :=
  if c.isUpper then Char.ofNat (c.toNat + 32) else c

/-- Python `s.lower()`. -/
def pyLower (s : String) : String :=
  String.mk (s.data.map pyCharLower)

/-- Python `s.strip()`: drop leading and trailing whitespace. -/
def pyStrip (s : String) : String :=
  String.mk (((s.data.dropWhile Char.isWhitespace).reverse.dropWhile
    Char.isWhitespace).reverse)

/-- Python `not s.strip()`: blank after stripping. -/
def pyIsBlank (s : String) : Bool :=
  (pyStrip s).data.isEmpty

/-- Python truthiness of a JSON value. -/
def pyTruthy : Json → Bool
  | .null => false
  | .bool b => b
  | .num q => q != 0
  | .str s => !s.data.isEmpty
  | .arr xs => !xs.isEmpty
  | .obj kvs => !kvs.isEmpty

/-- The items of a list-valued response (`x if isinstance(x, list) else []`). -/
def asItems : Json → List Json
  | .arr xs => xs
  | _ => []

/-- Numeric coercion used by Python arithmetic: numbers and bools are
numeric, everything else raises TypeError (for strings/lists the
TypeError surfaces at the enclosing `round`/`max`/division instead of
at the multiplication, but the raised class is the same). -/
def toNumE (j : Json) : Except PyErr ℚ :=
  match j with
  | .num q => .ok q
  | .bool b => .ok (if b then 1 else 0)
  | _ => .error (.typeError "unsupported operand type")

/-- Python `x > 0` on a JSON value. -/
def pyGtZero (j : Json) : Except PyErr Bool := do
  let q ← toNumE j
  pure (decide (0 < q))

/-- Python `x == 0` between a JSON value and the int literal 0
(`False == 0` is true in Python). -/
def pyEqZero : Json → Bool
  | .num q => q == 0
  | .bool b => !b
  | _ => false

/-- Python `str(x)` as used in f-strings.  Faithful on the strings,
ints and bools the dispatchers actually pass; Python's decimal float
repr is approximated for non-integral rationals. -/
def pyStrOf : Json → String
  | .null => "None"
  | .bool true => "True"
  | .bool false => "False"
  | .num q => if q.den == 1 then toString q.num else toString q
  | .str s => s
  | .arr _ => "[...]"
  | .obj _ => "\x7b...\x7d"

/-- Value of a list of decimal digit characters. -/
def digitsVal (cs : List Char) : Nat :=
  cs.foldl (fun n c => n * 10 + (c.toNat - 48)) 0

/-- Truncation toward zero, as Python `int(float)`. -/
def ratTrunc (q : ℚ) : Int :=
  if 0 ≤ q then ⌊q⌋ else ⌈q⌉

/-- Python `int(x)`: numbers truncate, bools map to 0/1, strings are
parsed (surrounding whitespace and a sign allowed) raising ValueError
on failure, and other types raise TypeError. -/
def pyInt (j : Json) : Except PyErr Int :=
  match j with
  | .num q => .ok (ratTrunc q)
  | .bool b => .ok (if b then 1 else 0)
  | .str s =>
    let cs := (pyStrip s).data
    let signed : Bool × List Char :=
      match cs with
      | '-' :: rest => (true, rest)
      | '+' :: rest => (false, rest)
      | _ => (false, cs)
    if !signed.2.isEmpty && signed.2.all Char.isDigit then
      .ok (if signed.1 then -(digitsVal signed.2 : Int) else (digitsVal signed.2 : Int))
    else
      .error (.valueError ("invalid literal for int() with base 10: \x27" ++ s ++ "\x27"))
  | .null => .error (.typeError "int() argument must be a string or a number, not NoneType")
  | _ => .error (.typeError "int() argument must be a string or a number")

/-- Python iteration (`for x in v`): lists yield items, strings yield
characters, dicts yield keys, everything else raises TypeError. -/
def pyIter (j : Json) : Except PyErr (List Json) :=
  match j with
  | .arr xs => .ok xs
  | .str s => .ok (s.data.map (fun c => Json.str (String.mk [c])))
  | .obj kvs => .ok (kvs.map (fun kv => Json.str kv.1))
  | _ => .error (.typeError "object is not iterable")

/-- Python `len(v)`. -/
def pyLen (j : Json) : Except PyErr Nat :=
  match j with
  | .arr xs => .ok xs.length
  | .str s => .ok s.length
  | .obj kvs => .ok kvs.length
  | _ => .error (.typeError "object has no len")

/-- Python `v[i]` for a natural index. -/
def pyIndexNat (j : Json) (i : Nat) : Except PyErr Json :=
  match j with
  | .arr xs =>
    match xs[i]? with
    | some x => .ok x
    | none => .error .indexError
  | .str s =>
    match s.data[i]? with
    | some c => .ok (.str (String.mk [c]))
    | none => .error .indexError
  | .obj _ => .error .keyError
  | _ => .error (.typeError "object is not subscriptable")

/-- Round-half-to-even on rationals, as Python `round`. -/
def roundHalfEven (q : ℚ) : Int :=
  let f := ⌊q⌋
  let r := q - (f : ℚ)
  if r < 1/2 then f
  else if 1/2 < r then f + 1
  else if f % 2 = 0 then f else f + 1

/-- Python `round(x, 2)` on exact rationals. -/
def round2 (q : ℚ) : ℚ :=
  (roundHalfEven (q * 100) : ℚ) / 100

/-- Python `", ".join(names)`. -/
def joinComma : List String → String
  | [] => ""
  | [s] => s
  | s :: rest => s ++ ", " ++ joinComma rest

/-- Code-point lexicographic comparison on character lists. -/
def charListLe : List Char → List Char → Bool
  | [], _ => true
  | _ :: _, [] => false
  | a :: as, b :: bs =>
    if a.toNat < b.toNat then true
    else if b.toNat < a.toNat then false
    else charListLe as bs

/-- Code-point comparison on strings (Python string ordering). -/
def strLe (a b : String) : Bool :=
  charListLe a.data b.data

/-- Sortedness check with respect to `strLe`. -/
def sortedStr : List String → Bool
  | [] => true
  | [_] => true
  | a :: b :: rest => strLe a b && sortedStr (b :: rest)

/-- Checker used to state that the message of an unknown-command error
mentions a list of names, in order. -/
inductive MentionsInOrder : List Char → List String → Prop where
  | nil (cs : List Char) : MentionsInOrder cs []
  | cons (pre : List Char) (n : String) (rest : List Char) (ns : List String) :
      MentionsInOrder rest ns → MentionsInOrder (pre ++ n.data ++ rest) (n :: ns)

/-- Python `==` on atomic JSON values (numbers and bools compare
numerically, as in Python); composite values are never compared equal
here, which is only exercised for scalar fields. -/
def pyEqAtom : Json → Json → Bool
  | .str a, .str b => a == b
  | .num a, .num b => a == b
  | .num a, .bool b => a == (if b then (1 : ℚ) else 0)
  | .bool a, .num b => (if a then (1 : ℚ) else 0) == b
  | .bool a, .bool b => a == b
  | .null, .null => true
  | _, _ => false

/-- Substring test on character lists (Python `needle in hay` for strings). -/
def containsSub (hay needle : List Char) : Bool :=
  match hay with
  | [] => needle.isEmpty
  | _ :: t => needle.isPrefixOf hay || containsSub t needle

/-- Effectful map of the reshaping loops: Python appends per item and
the first raised exception escapes. -/
def mapME (f : Json → Except PyErr Json) : List Json → Except PyErr (List Json)
  | [] => .ok []
  | x :: xs => do
    let y ← f x
    let ys ← mapME f xs
    pure (y :: ys)

/-- Whether an operation outcome is a raised TypeError. -/
def isTypeError : Except PyErr Json → Bool
  | .error (.typeError _) => true
  | _ => false

namespace Pm

/-- Proxmox client: `result.get("data", result)` on the parsed body. -/
def unwrapData (j : Json) : Except PyErr Json :=
  match j with
  | .obj kvs => .ok ((kvs.lookup "data").getD j)
  | _ => .error (.attributeError "object has no attribute get")

/-- Reshaping of one node entry in `list_nodes`. -/
def nodeEntry (nd : Json) : Except PyErr Json := do
  let cpuQ ← toNumE (jget nd "cpu" (.num 0))
  let memQ ← toNumE (jget nd "mem" (.num 0))
  let maxmemQ ← toNumE (jget nd "maxmem" (.num 1))
  pure (.obj [
    ("name", jget nd "node" (.str "")),
    ("status", jget nd "status" (.str "unknown")),
    ("cpu_usage", .num (round2 (cpuQ * 100))),
    ("memory_used", jget nd "mem" (.num 0)),
    ("memory_total", jget nd "maxmem" (.num 0)),
    ("memory_percent", .num (round2 (memQ / max maxmemQ 1 * 100))),
    ("uptime_seconds", jget nd "uptime" (.num 0)),
    ("disk_used", jget nd "disk" (.num 0)),
    ("disk_total", jget nd "maxdisk" (.num 0))])

def list_nodes (resp : Json) : OpOut :=
  let req : Request := { endpoint := "nodes" }
  ((do
    let nodes_data ← unwrapData resp
    let nodes ← mapME nodeEntry ((asItems nodes_data).filter isDict)
    pure (Json.obj [("nodes", .arr nodes), ("total", .num (nodes.length : ℚ))])), [req])

def get_node_status (node : Json) (resp : Json) : OpOut :=
  let req : Request := { endpoint := "nodes/" ++ pyStrOf node ++ "/status" }
  ((do
    let data ← unwrapData resp
    if !(isDict data) then
      return .obj [("node", node), ("status", .str "unknown")]
    let cpu_info := jget data "cpuinfo" (.obj [])
    let memory := jget data "memory" (.obj [])
    let root_fs := jget data "rootfs" (.obj [])
    let ksm := jget data "ksm" (.obj [])
    let model ← pyGet cpu_info "model" (.str "")
    let cores ← pyGet cpu_info "cores" (.num 0)
    let sockets ← pyGet cpu_info "sockets" (.num 0)
    let cpuQ ← toNumE (jget data "cpu" (.num 0))
    let memTotal ← pyGet memory "total" (.num 0)
    let memUsed ← pyGet memory "used" (.num 0)
    let memFree ← pyGet memory "free" (.num 0)
    let memUsedQ ← toNumE (← pyGet memory "used" (.num 0))
    let memTotalQ ← toNumE (← pyGet memory "total" (.num 1))
    let diskTotal ← pyGet root_fs "total" (.num 0)
    let diskUsed ← pyGet root_fs "used" (.num 0)
    let diskFree ← pyGet root_fs "avail" (.num 0)
    let diskUsedQ ← toNumE (← pyGet root_fs "used" (.num 0))
    let diskTotalQ ← toNumE (← pyGet root_fs "total" (.num 1))
    let shared ← pyGet ksm "shared" (.num 0)
    pure (.obj [
      ("node", node),
      ("uptime_seconds", jget data "uptime" (.num 0)),
      ("cpu", .obj [
        ("model", model),
        ("cores", cores),
        ("sockets", sockets),
        ("usage_percent", .num (round2 (cpuQ * 100))),
        ("load_average", jget data "loadavg" (.arr []))]),
      ("memory", .obj [
        ("total_bytes", memTotal),
        ("used_bytes", memUsed),
        ("free_bytes", memFree),
        ("percent_used", .num (round2 (memUsedQ / max memTotalQ 1 * 100)))]),
      ("disk", .obj [
        ("total_bytes", diskTotal),
        ("used_bytes", diskUsed),
        ("free_bytes", diskFree),
        ("percent_used", .num (round2 (diskUsedQ / max diskTotalQ 1 * 100)))]),
      ("ksm", .obj [("shared", shared)]),
      ("kernel_version", jget data "kversion" (.str "")),
      ("pve_version", jget data "pveversion" (.str ""))])), [req])

/-- Reshaping of one VM entry in `list_vms`. -/
def vmEntry (vm : Json) : Except PyErr Json := do
  let cpuQ ← toNumE (jget vm "cpu" (.num 0))
  pure (.obj [
    ("vmid", jget vm "vmid" (.num 0)),
    ("name", jget vm "name" (.str "")),
    ("status", jget vm "status" (.str "unknown")),
    ("cpu_usage", .num (round2 (cpuQ * 100))),
    ("memory_used", jget vm "mem" (.num 0)),
    ("memory_total", jget vm "maxmem" (.num 0)),
    ("disk_used", jget vm "disk" (.num 0)),
    ("disk_total", jget vm "maxdisk" (.num 0)),
    ("uptime_seconds", jget vm "uptime" (.num 0))])

def list_vms (node : Json) (resp : Json) : OpOut :=
  let req : Request := { endpoint := "nodes/" ++ pyStrOf node ++ "/qemu" }
  ((do
    let vms_data ← unwrapData resp
    let vms ← mapME vmEntry ((asItems vms_data).filter isDict)
    pure (Json.obj [("node", node), ("vms", .arr vms), ("total", .num (vms.length : ℚ))])), [req])

def get_vm_status (node : Json) (vmid : Int) (resp : Json) : OpOut :=
  let req : Request :=
    { endpoint := "nodes/" ++ pyStrOf node ++ "/qemu/" ++ toString vmid ++ "/status/current" }
  ((do
    let data ← unwrapData resp
    if !(isDict data) then
      return .obj [("node", node), ("vmid", .num (vmid : ℚ)), ("status", .str "unknown")]
    let cpuQ ← toNumE (jget data "cpu" (.num 0))
    pure (.obj [
      ("node", node),
      ("vmid", .num (vmid : ℚ)),
      ("name", jget data "name" (.str "")),
      ("status", jget data "status" (.str "unknown")),
      ("cpu_usage", .num (round2 (cpuQ * 100))),
      ("cpus", jget data "cpus" (.num 0)),
      ("memory_used", jget data "mem" (.num 0)),
      ("memory_total", jget data "maxmem" (.num 0)),
      ("disk_used", jget data "disk" (.num 0)),
      ("disk_total", jget data "maxdisk" (.num 0)),
      ("uptime_seconds", jget data "uptime" (.num 0)),
      ("pid", jget data "pid" .null),
      ("qmp_status", jget data "qmpstatus" (.str ""))])), [req])

def start_vm (node : Json) (vmid : Int) (resp : Json) : OpOut :=
  let req : Request :=
    { endpoint := "nodes/" ++ pyStrOf node ++ "/qemu/" ++ toString vmid ++ "/status/start"
      method := "POST" }
  ((do
    let data ← unwrapData resp
    pure (.obj [("node", node), ("vmid", .num (vmid : ℚ)),
                ("action", .str "start"), ("task_id", data)])), [req])

def stop_vm (node : Json) (vmid : Int) (resp : Json) : OpOut :=
  let req : Request :=
    { endpoint := "nodes/" ++ pyStrOf node ++ "/qemu/" ++ toString vmid ++ "/status/stop"
      method := "POST" }
  ((do
    let data ← unwrapData resp
    pure (.obj [("node", node), ("vmid", .num (vmid : ℚ)),
                ("action", .str "stop"), ("task_id", data)])), [req])

def reboot_vm (node : Json) (vmid : Int) (resp : Json) : OpOut :=
  let req : Request :=
    { endpoint := "nodes/" ++ pyStrOf node ++ "/qemu/" ++ toString vmid ++ "/status/reboot"
      method := "POST" }
  ((do
    let data ← unwrapData resp
    pure (.obj [("node", node), ("vmid", .num (vmid : ℚ)),
                ("action", .str "reboot"), ("task_id", data)])), [req])

def shutdown_vm (node : Json) (vmid : Int) (resp : Json) : OpOut :=
  let req : Request :=
    { endpoint := "nodes/" ++ pyStrOf node ++ "/qemu/" ++ toString vmid ++ "/status/shutdown"
      method := "POST" }
  ((do
    let data ← unwrapData resp
    pure (.obj [("node", node), ("vmid", .num (vmid : ℚ)),
                ("action", .str "shutdown"), ("task_id", data)])), [req])

/-- Reshaping of one container entry in `list_containers` (the source
duplicates the VM reshaping field for field). -/
def ctEntry (ct : Json) : Except PyErr Json := do
  let cpuQ ← toNumE (jget ct "cpu" (.num 0))
  pure (.obj [
    ("vmid", jget ct "vmid" (.num 0)),
    ("name", jget ct "name" (.str "")),
    ("status", jget ct "status" (.str "unknown")),
    ("cpu_usage", .num (round2 (cpuQ * 100))),
    ("memory_used", jget ct "mem" (.num 0)),
    ("memory_total", jget ct "maxmem" (.num 0)),
    ("disk_used", jget ct "disk" (.num 0)),
    ("disk_total", jget ct "maxdisk" (.num 0)),
    ("uptime_seconds", jget ct "uptime" (.num 0))])

def list_containers (node : Json) (resp : Json) : OpOut :=
  let req : Request := { endpoint := "nodes/" ++ pyStrOf node ++ "/lxc" }
  ((do
    let ct_data ← unwrapData resp
    let containers ← mapME ctEntry ((asItems ct_data).filter isDict)
    pure (Json.obj [("node", node), ("containers", .arr containers),
                    ("total", .num (containers.length : ℚ))])), [req])

def start_container (node : Json) (vmid : Int) (resp : Json) : OpOut :=
  let req : Request :=
    { endpoint := "nodes/" ++ pyStrOf node ++ "/lxc/" ++ toString vmid ++ "/status/start"
      method := "POST" }
  ((do
    let data ← unwrapData resp
    pure (.obj [("node", node), ("vmid", .num (vmid : ℚ)),
                ("action", .str "start"), ("task_id", data)])), [req])

def stop_container (node : Json) (vmid : Int) (resp : Json) : OpOut :=
  let req : Request :=
    { endpoint := "nodes/" ++ pyStrOf node ++ "/lxc/" ++ toString vmid ++ "/status/stop"
      method := "POST" }
  ((do
    let data ← unwrapData resp
    pure (.obj [("node", node), ("vmid", .num (vmid : ℚ)),
                ("action", .str "stop"), ("task_id", data)])), [req])

def reboot_container (node : Json) (vmid : Int) (resp : Json) : OpOut :=
  let req : Request :=
    { endpoint := "nodes/" ++ pyStrOf node ++ "/lxc/" ++ toString vmid ++ "/status/reboot"
      method := "POST" }
  ((do
    let data ← unwrapData resp
    pure (.obj [("node", node), ("vmid", .num (vmid : ℚ)),
                ("action", .str "reboot"), ("task_id", data)])), [req])

/-- Reshaping of one storage entry in `list_storage`. -/
def storageEntry (st : Json) : Except PyErr Json := do
  let totalJ := jget st "total" (.num 0)
  let usedJ := jget st "used" (.num 0)
  let totalQ ← toNumE totalJ
  let usedQ ← toNumE usedJ
  pure (.obj [
    ("storage", jget st "storage" (.str "")),
    ("type", jget st "type" (.str "")),
    ("content", jget st "content" (.str "")),
    ("status", jget st "status" (.str "")),
    ("active", jget st "active" (.num 0)),
    ("total_bytes", totalJ),
    ("used_bytes", usedJ),
    ("available_bytes", jget st "avail" (.num 0)),
    ("percent_used", .num (round2 (usedQ / max totalQ 1 * 100)))])

def list_storage (node : Json) (resp : Json) : OpOut :=
  let req : Request := { endpoint := "nodes/" ++ pyStrOf node ++ "/storage" }
  ((do
    let st_data ← unwrapData resp
    let storages ← mapME storageEntry ((asItems st_data).filter isDict)
    pure (Json.obj [("node", node), ("storage", .arr storages),
                    ("total", .num (storages.length : ℚ))])), [req])

/-- Reshaping of one entry in `get_cluster_status`. -/
def clusterEntry (item : Json) : Json :=
  .obj [
    ("name", jget item "name" (.str "")),
    ("type", jget item "type" (.str "")),
    ("online", jget item "online" (.num 0)),
    ("nodeid", jget item "nodeid" .null),
    ("ip", jget item "ip" (.str "")),
    ("level", jget item "level" (.str "")),
    ("local", jget item "local" (.num 0))]

def get_cluster_status (resp : Json) : OpOut :=
  let req : Request := { endpoint := "cluster/status" }
  ((do
    let data ← unwrapData resp
    let entries := ((asItems data).filter isDict).map clusterEntry
    pure (Json.obj [("cluster", .arr entries), ("total", .num (entries.length : ℚ))])), [req])

/-- Reshaping of one entry in `list_cluster_resources`. -/
def resourceEntry (res : Json) : Json :=
  .obj [
    ("id", jget res "id" (.str "")),
    ("type", jget res "type" (.str "")),
    ("node", jget res "node" (.str "")),
    ("name", jget res "name" (.str "")),
    ("status", jget res "status" (.str "")),
    ("cpu", jget res "cpu" (.num 0)),
    ("maxcpu", jget res "maxcpu" (.num 0)),
    ("mem", jget res "mem" (.num 0)),
    ("maxmem", jget res "maxmem" (.num 0)),
    ("disk", jget res "disk" (.num 0)),
    ("maxdisk", jget res "maxdisk" (.num 0)),
    ("uptime", jget res "uptime" (.num 0))]

def list_cluster_resources (resource_type : Json) (resp : Json) : OpOut :=
  let req : Request :=
    { endpoint := "cluster/resources"
      params := if pyTruthy resource_type then [("type", resource_type)] else [] }
  ((do
    let data ← unwrapData resp
    let resources := ((asItems data).filter isDict).map resourceEntry
    pure (Json.obj [("resources", .arr resources),
                    ("total", .num (resources.length : ℚ))])), [req])

/-- Reshaping of one entry in `list_tasks`. -/
def taskEntry (task : Json) : Json :=
  .obj [
    ("upid", jget task "upid" (.str "")),
    ("type", jget task "type" (.str "")),
    ("status", jget task "status" (.str "")),
    ("user", jget task "user" (.str "")),
    ("starttime", jget task "starttime" (.num 0)),
    ("endtime", jget task "endtime" (.num 0)),
    ("node", jget task "node" (.str ""))]

def list_tasks (node : Json) (limit : Json) (resp : Json) : OpOut :=
  let req : Request :=
    { endpoint := "nodes/" ++ pyStrOf node ++ "/tasks"
      params := [("limit", limit)] }
  ((do
    let data ← unwrapData resp
    let tasks := ((asItems data).filter isDict).map taskEntry
    pure (Json.obj [("node", node), ("tasks", .arr tasks),
                    ("total", .num (tasks.length : ℚ))])), [req])

end Pm

namespace Pbs

/-- PBS client: `result.get("data", result)` on the parsed body. -/
def unwrapData (j : Json) : Except PyErr Json :=
  match j with
  | .obj kvs => .ok ((kvs.lookup "data").getD j)
  | _ => .error (.attributeError "object has no attribute get")

def get_node_status (resp : Json) : OpOut :=
  let req : Request := { endpoint := "nodes/localhost/status" }
  ((do
    let data ← unwrapData resp
    if !(isDict data) then
      return .obj [("status", .str "unknown")]
    let cpu_info := jget data "cpuinfo" (.obj [])
    let memory := jget data "memory" (.obj [])
    let root := jget data "root" (.obj [])
    let info := jget data "info" (.obj [])
    let model ← pyGet cpu_info "model" (.str "")
    let cores ← pyGet cpu_info "cores" (.num 0)
    let sockets ← pyGet cpu_info "sockets" (.num 0)
    let cpuQ ← toNumE (jget data "cpu" (.num 0))
    let memTotal ← pyGet memory "total" (.num 0)
    let memUsed ← pyGet memory "used" (.num 0)
    let memFree ← pyGet memory "free" (.num 0)
    let memUsedQ ← toNumE (← pyGet memory "used" (.num 0))
    let memTotalQ ← toNumE (← pyGet memory "total" (.num 1))
    let diskTotal ← pyGet root "total" (.num 0)
    let diskUsed ← pyGet root "used" (.num 0)
    let diskAvail ← pyGet root "avail" (.num 0)
    let diskUsedQ ← toNumE (← pyGet root "used" (.num 0))
    let diskTotalQ ← toNumE (← pyGet root "total" (.num 1))
    let version ← pyGet info "version" (.str "")
    pure (.obj [
      ("uptime_seconds", jget data "uptime" (.num 0)),
      ("cpu", .obj [
        ("model", model),
        ("cores", cores),
        ("sockets", sockets),
        ("usage_percent", .num (round2 (cpuQ * 100))),
        ("load_average", jget data "loadavg" (.arr []))]),
      ("memory", .obj [
        ("total_bytes", memTotal),
        ("used_bytes", memUsed),
        ("free_bytes", memFree),
        ("percent_used", .num (round2 (memUsedQ / max memTotalQ 1 * 100)))]),
      ("disk", .obj [
        ("total_bytes", diskTotal),
        ("used_bytes", diskUsed),
        ("available_bytes", diskAvail),
        ("percent_used", .num (round2 (diskUsedQ / max diskTotalQ 1 * 100)))]),
      ("version", version),
      ("kernel_version", jget data "kversion" (.str ""))])), [req])

/-- Reshaping of one datastore entry in `list_datastores`. -/
def dsEntry (ds : Json) : Json :=
  .obj [
    ("name", jget ds "name" (.str "")),
    ("path", jget ds "path" (.str "")),
    ("comment", jget ds "comment" (.str ""))]

def list_datastores (resp : Json) : OpOut :=
  let req : Request := { endpoint := "admin/datastore" }
  ((do
    let ds_data ← unwrapData resp
    let datastores := ((asItems ds_data).filter isDict).map dsEntry
    pure (Json.obj [("datastores", .arr datastores),
                    ("total", .num (datastores.length : ℚ))])), [req])

/-- Match of one usage entry against the requested datastore name:
`isinstance(item, dict) and item.get("store") == datastore`. -/
def storeMatches (datastore : Json) (item : Json) : Bool :=
  isDict item && pyEqAtom (jget item "store" .null) datastore

def get_datastore_status (datastore : Json) (conf : Json) (usage : Json) : OpOut :=
  let req1 : Request := { endpoint := "admin/datastore/" ++ pyStrOf datastore }
  match unwrapData conf with
  | .error e => (.error e, [req1])
  | .ok data0 =>
    let data := if isDict data0 then data0 else .obj []
    let req2 : Request := { endpoint := "status/datastore-usage" }
    match unwrapData usage with
    | .error e => (.error e, [req1, req2])
    | .ok us =>
      let ds_usage := ((asItems us).find? (storeMatches datastore)).getD (.obj [])
      let totalJ := jget ds_usage "total" (.num 0)
      let usedJ := jget ds_usage "used" (.num 0)
      let availJ := jget ds_usage "avail" (.num 0)
      ((do
        let totalQ ← toNumE totalJ
        let usedQ ← toNumE usedJ
        pure (Json.obj [
          ("datastore", datastore),
          ("path", jget data "path" (.str "")),
          ("comment", jget data "comment" (.str "")),
          ("total_bytes", totalJ),
          ("used_bytes", usedJ),
          ("available_bytes", availJ),
          ("percent_used", .num (round2 (usedQ / max totalQ 1 * 100))),
          ("gc_schedule", jget data "gc-schedule" (.str "")),
          ("prune_schedule", jget data "prune-schedule" (.str ""))])), [req1, req2])

/-- Reshaping of one snapshot entry in `list_datastore_snapshots`. -/
def snapEntry (snap : Json) : Json :=
  .obj [
    ("backup_type", jget snap "backup-type" (.str "")),
    ("backup_id", jget snap "backup-id" (.str "")),
    ("backup_time", jget snap "backup-time" (.num 0)),
    ("size", jget snap "size" (.num 0)),
    ("owner", jget snap "owner" (.str "")),
    ("verification", jget snap "verification" (.obj [])),
    ("protected", jget snap "protected" (.bool false))]

def list_datastore_snapshots (datastore : Json) (backup_type : Json) (backup_id : Json)
    (resp : Json) : OpOut :=
  let req : Request :=
    { endpoint := "admin/datastore/" ++ pyStrOf datastore ++ "/snapshots"
      params :=
        (if pyTruthy backup_type then [("backup-type", backup_type)] else []) ++
        (if pyTruthy backup_id then [("backup-id", backup_id)] else []) }
  ((do
    let data ← unwrapData resp
    let snapshots := ((asItems data).filter isDict).map snapEntry
    pure (Json.obj [("datastore", datastore), ("snapshots", .arr snapshots),
                    ("total", .num (snapshots.length : ℚ))])), [req])

/-- Reshaping of one group entry in `list_backup_groups`. -/
def groupEntry (grp : Json) : Json :=
  .obj [
    ("backup_type", jget grp "backup-type" (.str "")),
    ("backup_id", jget grp "backup-id" (.str "")),
    ("last_backup", jget grp "last-backup" (.num 0)),
    ("backup_count", jget grp "backup-count" (.num 0)),
    ("owner", jget grp "owner" (.str ""))]

def list_backup_groups (datastore : Json) (resp : Json) : OpOut :=
  let req : Request := { endpoint := "admin/datastore/" ++ pyStrOf datastore ++ "/groups" }
  ((do
    let data ← unwrapData resp
    let groups := ((asItems data).filter isDict).map groupEntry
    pure (Json.obj [("datastore", datastore), ("groups", .arr groups),
                    ("total", .num (groups.length : ℚ))])), [req])

/-- Reshaping of one sync-job entry in `list_sync_jobs`. -/
def syncJobEntry (job : Json) : Json :=
  .obj [
    ("id", jget job "id" (.str "")),
    ("store", jget job "store" (.str "")),
    ("remote", jget job "remote" (.str "")),
    ("remote_store", jget job "remote-store" (.str "")),
    ("schedule", jget job "schedule" (.str "")),
    ("comment", jget job "comment" (.str "")),
    ("remove_vanished", jget job "remove-vanished" (.bool false))]

def list_sync_jobs (resp : Json) : OpOut :=
  let req : Request := { endpoint := "admin/sync" }
  ((do
    let data ← unwrapData resp
    let jobs := ((asItems data).filter isDict).map syncJobEntry
    pure (Json.obj [("sync_jobs", .arr jobs), ("total", .num (jobs.length : ℚ))])), [req])

def run_sync_job (job_id : Json) (resp : Json) : OpOut :=
  let req : Request :=
    { endpoint := "admin/sync/" ++ pyStrOf job_id ++ "/run", method := "POST" }
  ((do
    let data ← unwrapData resp
    pure (.obj [("job_id", job_id), ("action", .str "run"), ("task_id", data)])), [req])

/-- Reshaping of one verify-job entry in `list_verify_jobs`. -/
def verifyJobEntry (job : Json) : Json :=
  .obj [
    ("id", jget job "id" (.str "")),
    ("store", jget job "store" (.str "")),
    ("schedule", jget job "schedule" (.str "")),
    ("comment", jget job "comment" (.str "")),
    ("ignore_verified", jget job "ignore-verified" (.bool false)),
    ("outdated_after", jget job "outdated-after" (.str ""))]

def list_verify_jobs (resp : Json) : OpOut :=
  let req : Request := { endpoint := "admin/verify" }
  ((do
    let data ← unwrapData resp
    let jobs := ((asItems data).filter isDict).map verifyJobEntry
    pure (Json.obj [("verify_jobs", .arr jobs), ("total", .num (jobs.length : ℚ))])), [req])

def run_verify_job (job_id : Json) (resp : Json) : OpOut :=
  let req : Request :=
    { endpoint := "admin/verify/" ++ pyStrOf job_id ++ "/run", method := "POST" }
  ((do
    let data ← unwrapData resp
    pure (.obj [("job_id", job_id), ("action", .str "run"), ("task_id", data)])), [req])

def run_garbage_collection (datastore : Json) (resp : Json) : OpOut :=
  let req : Request :=
    { endpoint := "admin/datastore/" ++ pyStrOf datastore ++ "/gc", method := "POST" }
  ((do
    let data ← unwrapData resp
    pure (.obj [("datastore", datastore), ("action", .str "gc"), ("task_id", data)])), [req])

/-- Body of the prune request: `backup-type`/`backup-id` always, each
`keep-*` key only when the corresponding argument compares `> 0`. -/
def pruneBody (backup_type backup_id keep_last keep_daily keep_weekly keep_monthly
    keep_yearly : Json) : Except PyErr (List (String × Json)) := do
  let base := [("backup-type", backup_type), ("backup-id", backup_id)]
  let b1 := base ++ (if (← pyGtZero keep_last) then [("keep-last", keep_last)] else [])
  let b2 := b1 ++ (if (← pyGtZero keep_daily) then [("keep-daily", keep_daily)] else [])
  let b3 := b2 ++ (if (← pyGtZero keep_weekly) then [("keep-weekly", keep_weekly)] else [])
  let b4 := b3 ++ (if (← pyGtZero keep_monthly) then [("keep-monthly", keep_monthly)] else [])
  pure (b4 ++ (if (← pyGtZero keep_yearly) then [("keep-yearly", keep_yearly)] else []))

def run_prune (datastore backup_type backup_id keep_last keep_daily keep_weekly
    keep_monthly keep_yearly : Json) (resp : Json) : OpOut :=
  match pruneBody backup_type backup_id keep_last keep_daily keep_weekly keep_monthly
      keep_yearly with
  | .error e => (.error e, [])
  | .ok prune_data =>
    let req : Request :=
      { endpoint := "admin/datastore/" ++ pyStrOf datastore ++ "/prune"
        method := "POST"
        body := some prune_data }
    ((do
      let data ← unwrapData resp
      pure (.obj [("datastore", datastore), ("action", .str "prune"),
                  ("result", data)])), [req])

/-- Reshaping of one task entry in `list_tasks`. -/
def taskEntry (task : Json) : Json :=
  .obj [
    ("upid", jget task "upid" (.str "")),
    ("worker_type", jget task "worker_type" (.str "")),
    ("worker_id", jget task "worker_id" (.str "")),
    ("status", jget task "status" (.str "")),
    ("user", jget task "user" (.str "")),
    ("starttime", jget task "starttime" (.num 0)),
    ("endtime", jget task "endtime" (.num 0))]

def list_tasks (limit : Json) (resp : Json) : OpOut :=
  let req : Request :=
    { endpoint := "nodes/localhost/tasks", params := [("limit", limit)] }
  ((do
    let data ← unwrapData resp
    let tasks := ((asItems data).filter isDict).map taskEntry
    pure (Json.obj [("tasks", .arr tasks), ("total", .num (tasks.length : ℚ))])), [req])

def get_task_status (upid : Json) (resp : Json) : OpOut :=
  let req : Request := { endpoint := "nodes/localhost/tasks/" ++ pyStrOf upid ++ "/status" }
  ((do
    let data ← unwrapData resp
    if !(isDict data) then
      return .obj [("upid", upid), ("status", .str "unknown")]
    pure (.obj [
      ("upid", upid),
      ("status", jget data "status" (.str "unknown")),
      ("exitstatus", jget data "exitstatus" (.str "")),
      ("type", jget data "type" (.str "")),
      ("starttime", jget data "starttime" (.num 0)),
      ("endtime", jget data "endtime" (.num 0))])), [req])

end Pbs

namespace Whm

/-- WHM client success path: raise ValueError when the body reports
`status == 0` (top level, then per item of a list-valued `result`
field), mirroring the `in`/indexing semantics of the source for
non-dict bodies; otherwise return the parsed body unchanged. -/
def whmUnwrap (j : Json) : Except PyErr Json :=
  if isDict j && pyEqZero (jget j "status" .null) then
    .error (.valueError ("WHM API Error: " ++ pyStrOf (jget j "statusmsg" (.str "Unknown"))))
  else
    match j with
    | .obj kvs =>
      match kvs.lookup "result" with
      | some (.arr items) =>
        match items.find? (fun it => isDict it && pyEqZero (jget it "status" .null)) with
        | some bad =>
          .error (.valueError ("WHM API Error: " ++ pyStrOf (jget bad "statusmsg" (.str "Unknown"))))
        | none => .ok j
      | _ => .ok j
    | .arr xs =>
      if xs.any (fun x => pyEqAtom x (.str "result")) then
        .error (.typeError "list indices must be integers")
      else .ok j
    | .str s =>
      if (containsSub s.data "result".data) then
        .error (.typeError "string indices must be integers")
      else .ok j
    | _ => .error (.typeError "argument is not iterable")

def get_server_resources (loadResp : Json) (diskResp : Json) : OpOut :=
  let req1 : Request := { endpoint := "loadavg" }
  match whmUnwrap loadResp with
  | .error e => (.error e, [req1])
  | .ok load_data =>
    let req2 : Request := { endpoint := "getdiskinfo" }
    match whmUnwrap diskResp with
    | .error e => (.error e, [req1, req2])
    | .ok disk_data =>
      ((do
        let avg ← pyGet load_data "avg" (.arr [.num 0, .num 0, .num 0])
        let disk ← pyGet disk_data "partition" (.arr [.obj []])
        let root_part :=
          ((asItems disk).find? (fun p =>
            isDict p && pyEqAtom (jget p "mount" (.str "")) (.str "/"))).getD (.obj [])
        let n ← pyLen avg
        let load1 ← if 0 < n then pyIndexNat avg 0 else pure (.num 0)
        let load5 ← if 1 < n then pyIndexNat avg 1 else pure (.num 0)
        let load15 ← if 2 < n then pyIndexNat avg 2 else pure (.num 0)
        let l1q ← toNumE load1
        pure (Json.obj [
          ("cpu", .obj [
            ("load_1min", load1),
            ("load_5min", load5),
            ("load_15min", load15),
            ("status", .str (if l1q < 4 then "ok" else "high"))]),
          ("disk", .obj [
            ("total", jget root_part "total" (.str "N/A")),
            ("used", jget root_part "used" (.str "N/A")),
            ("available", jget root_part "available" (.str "N/A")),
            ("percent_used", jget root_part "percentage" (.str "N/A"))])])), [req1, req2])

/-- Reshaping of one account entry in `list_accounts`. -/
def acctEntry (acct : Json) : Json :=
  .obj [
    ("user", jget acct "user" (.str "")),
    ("domain", jget acct "domain" (.str "")),
    ("email", jget acct "email" (.str "")),
    ("plan", jget acct "plan" (.str "")),
    ("suspended", jget acct "suspended" (.bool false)),
    ("disk_used", jget acct "diskused" (.str "0M")),
    ("disk_limit", jget acct "disklimit" (.str "unlimited"))]

def list_accounts (resp : Json) : OpOut :=
  let req : Request := { endpoint := "listaccts", params := [("api.version", .str "1")] }
  ((do
    let data ← whmUnwrap resp
    let items ← pyIter (← pyGet data "acct" (.arr []))
    let accounts := (items.filter isDict).map acctEntry
    pure (Json.obj [("accounts", .arr accounts),
                    ("total", .num (accounts.length : ℚ))])), [req])

/-- Reshaping of one domain entry in `list_domains`. -/
def domainEntry (info : Json) : Json :=
  .obj [
    ("domain", jget info "domain" (.str "")),
    ("document_root", jget info "docroot" (.str "")),
    ("user", jget info "user" (.str "")),
    ("status", jget info "status" (.str "active"))]

def list_domains (resp : Json) : OpOut :=
  let req : Request := { endpoint := "listdomains" }
  ((do
    let data ← whmUnwrap resp
    let items ← pyIter (← pyGet data "domain" (.arr []))
    let domains := (items.filter isDict).map domainEntry
    pure (Json.obj [("domains", .arr domains),
                    ("total", .num (domains.length : ℚ))])), [req])

/-- Python `rv[0] if rv else fallback` used on the `result` field. -/
def resultHead (rv : Json) (fallback : Json) : Except PyErr Json :=
  if pyTruthy rv then pyIndexNat rv 0 else .ok fallback

/-- Python `round(usage / limit * 100, 2) if limit > 0 else 0`. -/
def pctOf (usage limit : Json) : Except PyErr ℚ := do
  if (← pyGtZero limit) then
    let u ← toNumE usage
    let l ← toNumE limit
    pure (round2 (u / l * 100))
  else
    pure (0 : ℚ)

def get_disk_usage (account : String) (resp : Json) : OpOut :=
  let req : Request := { endpoint := "getdiskusage", params := [("user", .str account)] }
  ((do
    let data ← whmUnwrap resp
    let rv ← pyGet data "result" .null
    let result ← resultHead rv (.obj [])
    let usage ← pyGet result "diskquota" (.num 0)
    let limit ← pyGet result "disklimit" (.num 1)
    let pct ← pctOf usage limit
    let umb ← toNumE usage
    let lmb ← toNumE limit
    pure (Json.obj [
      ("account", .str account),
      ("disk_usage_bytes", usage),
      ("disk_usage_mb", .num (round2 (umb / 1048576))),
      ("disk_limit_bytes", limit),
      ("disk_limit_mb", .num (round2 (lmb / 1048576))),
      ("percent_used", .num pct),
      ("status", .str (if pct < 80 then "ok" else if pct < 90 then "warning" else "critical"))])),
   [req])

def suspend_account (account : String) (reason : Json) (resp : Json) : OpOut :=
  let req : Request :=
    { endpoint := "suspendacct"
      params := [("user", .str account)] ++
        (if pyTruthy reason then [("reason", reason)] else []) }
  ((do
    let data ← whmUnwrap resp
    let rv ← pyGet data "result" .null
    let result ← resultHead rv data
    pure (Json.obj [("account", .str account), ("action", .str "suspended"),
                    ("result", result)])), [req])

def unsuspend_account (account : String) (resp : Json) : OpOut :=
  let req : Request := { endpoint := "unsuspendacct", params := [("user", .str account)] }
  ((do
    let data ← whmUnwrap resp
    let rv ← pyGet data "result" .null
    let result ← resultHead rv data
    pure (Json.obj [("account", .str account), ("action", .str "unsuspended"),
                    ("result", result)])), [req])

/-- Reshaping of one bandwidth entry in `get_bandwidth`. -/
def bwEntry (entry : Json) : Json :=
  .obj [
    ("account", jget entry "acct" (.str "")),
    ("domain", jget entry "domain" (.str "")),
    ("bytes_used", jget entry "totalbytes" (.num 0)),
    ("limit", jget entry "limit" (.str "unlimited"))]

def get_bandwidth (account : Json) (resp : Json) : OpOut :=
  let req : Request :=
    if pyTruthy account then
      { endpoint := "showbw"
        params := [("searchtype", .str "user"), ("search", account)] }
    else
      { endpoint := "showbw" }
  ((do
    let data ← whmUnwrap resp
    let items ← pyIter (← pyGet data "bandwidth" (.arr []))
    let bandwidth_entries := (items.filter isDict).map bwEntry
    pure (Json.obj [("bandwidth", .arr bandwidth_entries),
                    ("total_entries", .num (bandwidth_entries.length : ℚ))])), [req])

def get_hostname (resp : Json) : OpOut :=
  let req : Request := { endpoint := "gethostname" }
  ((do
    let data ← whmUnwrap resp
    pure (Json.obj [("hostname", ← pyGet data "hostname" (.str "unknown"))])), [req])

/-- The `restart_service` allow-list, in the order of the source's set
literal. -/
def allowedServices : List String :=
  ["httpd", "exim", "mysql", "named", "ftpd", "sshd", "cpsrvd"]

/-- Result of `sorted(allowed)`, proved sorted and complete in the
claim theorems. -/
def allowedSorted : List String :=
  ["cpsrvd", "exim", "ftpd", "httpd", "mysql", "named", "sshd"]

def restart_service (service : String) (resp : Json) : OpOut :=
  if !(allowedServices.contains service) then
    (.error (.valueError ("Service \x27" ++ service ++ "\x27 not allowed. Valid: " ++
      joinComma allowedSorted)), [])
  else
    let req : Request := { endpoint := "restartservice", params := [("service", .str service)] }
    ((do
      let data ← whmUnwrap resp
      pure (Json.obj [("service", .str service), ("action", .str "restart"),
                      ("result", data)])), [req])

end Whm

namespace Pm

/-- The operation functions reachable from the Proxmox command router. -/
inductive Cmd where
  | list_nodes | get_node_status | list_vms | get_vm_status
  | start_vm | stop_vm | reboot_vm | shutdown_vm
  | list_containers | start_container | stop_container | reboot_container
  | list_storage | get_cluster_status | list_cluster_resources | list_tasks
deriving DecidableEq

/-- The `cmd_map` routing table, in source order. -/
def cmd_map : List (String × Cmd) := [
  ("list_nodes", .list_nodes),
  ("nodes", .list_nodes),
  ("get_node_status", .get_node_status),
  ("node_status", .get_node_status),
  ("list_vms", .list_vms),
  ("vms", .list_vms),
  ("get_vm_status", .get_vm_status),
  ("vm_status", .get_vm_status),
  ("start_vm", .start_vm),
  ("stop_vm", .stop_vm),
  ("reboot_vm", .reboot_vm),
  ("shutdown_vm", .shutdown_vm),
  ("list_containers", .list_containers),
  ("containers", .list_containers),
  ("start_container", .start_container),
  ("stop_container", .stop_container),
  ("reboot_container", .reboot_container),
  ("list_storage", .list_storage),
  ("storage", .list_storage),
  ("get_cluster_status", .get_cluster_status),
  ("cluster", .get_cluster_status),
  ("list_cluster_resources", .list_cluster_resources),
  ("cluster_resources", .list_cluster_resources),
  ("list_tasks", .list_tasks),
  ("tasks", .list_tasks)]

/-- The value of `sorted(cmd_map.keys())`; that it is the sorted
permutation of the keys is proved in the claim theorems. -/
def validSorted : List String := [
  "cluster", "cluster_resources", "containers", "get_cluster_status",
  "get_node_status", "get_vm_status", "list_cluster_resources",
  "list_containers", "list_nodes", "list_storage", "list_tasks",
  "list_vms", "node_status", "nodes", "reboot_container", "reboot_vm",
  "shutdown_vm", "start_container", "start_vm", "stop_container",
  "stop_vm", "storage", "tasks", "vm_status", "vms"]

/-- Message of the unknown-command ValueError. -/
def unknownMsg (command : String) : String :=
  "Unknown command \x27" ++ command ++ "\x27. Valid: " ++ joinComma validSorted

/-- The router body, after `command = command.lower().strip()`. -/
def dispatch (command : String) (args : List (String × Json)) (resps : List Json) : OpOut :=
  let r0 := resps.getD 0 .null
  match cmd_map.lookup command with
  | none => (.error (.valueError (unknownMsg command)), [])
  | some f =>
    if f = .list_nodes then list_nodes r0
    else if f = .get_cluster_status then get_cluster_status r0
    else
      let node := dget args "node" (.str "")
      if !(pyTruthy node) && !(f = .list_cluster_resources) then
        (.error (.valueError (command ++ " requires a \x27node\x27 argument")), [])
      else if f = .list_cluster_resources then
        list_cluster_resources (dget args "type" (.str "")) r0
      else if f = .get_node_status then get_node_status node r0
      else if f = .list_vms then list_vms node r0
      else if f = .list_containers then list_containers node r0
      else if f = .list_storage then list_storage node r0
      else if f = .list_tasks then list_tasks node (dget args "limit" (.num 20)) r0
      else
        match (args.lookup "vmid").getD .null with
        | .null => (.error (.valueError (command ++ " requires a \x27vmid\x27 argument")), [])
        | v =>
          match pyInt v with
          | .error e => (.error e, [])
          | .ok n =>
            match f with
            | .get_vm_status => get_vm_status node n r0
            | .start_vm => start_vm node n r0
            | .stop_vm => stop_vm node n r0
            | .reboot_vm => reboot_vm node n r0
            | .shutdown_vm => shutdown_vm node n r0
            | .start_container => start_container node n r0
            | .stop_container => stop_container node n r0
            | .reboot_container => reboot_container node n r0
            | _ => (.error (.typeError "missing required positional arguments"), [])

def execute_command (command : String) (args : List (String × Json))
    (resps : List Json) : OpOut :=
  dispatch (pyStrip (pyLower command)) args resps

end Pm

namespace Pbs

/-- The operation functions reachable from the PBS command router. -/
inductive Cmd where
  | get_node_status | list_datastores | get_datastore_status
  | list_datastore_snapshots | list_backup_groups
  | list_sync_jobs | run_sync_job | list_verify_jobs | run_verify_job
  | run_garbage_collection | run_prune | list_tasks | get_task_status
deriving DecidableEq

/-- The `cmd_map` routing table, in source order. -/
def cmd_map : List (String × Cmd) := [
  ("get_node_status", .get_node_status),
  ("node_status", .get_node_status),
  ("list_datastores", .list_datastores),
  ("datastores", .list_datastores),
  ("get_datastore_status", .get_datastore_status),
  ("datastore_status", .get_datastore_status),
  ("list_snapshots", .list_datastore_snapshots),
  ("snapshots", .list_datastore_snapshots),
  ("list_backup_groups", .list_backup_groups),
  ("backup_groups", .list_backup_groups),
  ("list_sync_jobs", .list_sync_jobs),
  ("sync_jobs", .list_sync_jobs),
  ("run_sync_job", .run_sync_job),
  ("list_verify_jobs", .list_verify_jobs),
  ("verify_jobs", .list_verify_jobs),
  ("run_verify_job", .run_verify_job),
  ("run_gc", .run_garbage_collection),
  ("gc", .run_garbage_collection),
  ("run_prune", .run_prune),
  ("prune", .run_prune),
  ("list_tasks", .list_tasks),
  ("tasks", .list_tasks),
  ("get_task_status", .get_task_status),
  ("task_status", .get_task_status)]

/-- The value of `sorted(cmd_map.keys())`; that it is the sorted
permutation of the keys is proved in the claim theorems. -/
def validSorted : List String := [
  "backup_groups", "datastore_status", "datastores", "gc",
  "get_datastore_status", "get_node_status", "get_task_status",
  "list_backup_groups", "list_datastores", "list_snapshots",
  "list_sync_jobs", "list_tasks", "list_verify_jobs", "node_status",
  "prune", "run_gc", "run_prune", "run_sync_job", "run_verify_job",
  "snapshots", "sync_jobs", "task_status", "tasks", "verify_jobs"]

/-- Message of the unknown-command ValueError. -/
def unknownMsg (command : String) : String :=
  "Unknown command \x27" ++ command ++ "\x27. Valid: " ++ joinComma validSorted

/-- The router body, after `command = command.lower().strip()`. -/
def dispatch (command : String) (args : List (String × Json)) (resps : List Json) : OpOut :=
  let r0 := resps.getD 0 .null
  match cmd_map.lookup command with
  | none => (.error (.valueError (unknownMsg command)), [])
  | some f =>
    if f = .get_node_status then get_node_status r0
    else if f = .list_datastores then list_datastores r0
    else if f = .list_sync_jobs then list_sync_jobs r0
    else if f = .list_verify_jobs then list_verify_jobs r0
    else if f = .list_tasks then list_tasks (dget args "limit" (.num 20)) r0
    else
      let datastore := dget args "datastore" (.str "")
      if f = .get_datastore_status || f = .list_datastore_snapshots ||
          f = .list_backup_groups || f = .run_garbage_collection then
        if !(pyTruthy datastore) then
          (.error (.valueError (command ++ " requires a \x27datastore\x27 argument")), [])
        else if f = .list_datastore_snapshots then
          list_datastore_snapshots datastore (dget args "backup_type" (.str ""))
            (dget args "backup_id" (.str "")) r0
        else if f = .list_backup_groups then list_backup_groups datastore r0
        else if f = .run_garbage_collection then run_garbage_collection datastore r0
        else get_datastore_status datastore r0 (resps.getD 1 .null)
      else if f = .run_prune then
        if !(pyTruthy datastore) then
          (.error (.valueError "prune requires a \x27datastore\x27 argument"), [])
        else
          let backup_type := dget args "backup_type" (.str "")
          let backup_id := dget args "backup_id" (.str "")
          if !(pyTruthy backup_type) || !(pyTruthy backup_id) then
            (.error (.valueError "prune requires \x27backup_type\x27 and \x27backup_id\x27 arguments"), [])
          else
            run_prune datastore backup_type backup_id
              (dget args "keep_last" (.num 0)) (dget args "keep_daily" (.num 0))
              (dget args "keep_weekly" (.num 0)) (dget args "keep_monthly" (.num 0))
              (dget args "keep_yearly" (.num 0)) r0
      else
        let job_id := dget args "job_id" (.str "")
        if f = .run_sync_job || f = .run_verify_job then
          if !(pyTruthy job_id) then
            (.error (.valueError (command ++ " requires a \x27job_id\x27 argument")), [])
          else if f = .run_sync_job then run_sync_job job_id r0
          else run_verify_job job_id r0
        else
          let upid := dget args "upid" (.str "")
          if !(pyTruthy upid) then
            (.error (.valueError "task_status requires a \x27upid\x27 argument"), [])
          else get_task_status upid r0

def execute_command (command : String) (args : List (String × Json))
    (resps : List Json) : OpOut :=
  dispatch (pyStrip (pyLower command)) args resps

end Pbs

namespace Whm

/-- The operation functions reachable from the WHM command router. -/
inductive Cmd where
  | get_server_resources | list_accounts | list_domains | get_disk_usage
  | suspend_account | unsuspend_account | get_bandwidth | get_hostname
  | restart_service
deriving DecidableEq

/-- The `cmd_map` routing table, in source order. -/
def cmd_map : List (String × Cmd) := [
  ("get_server_resources", .get_server_resources),
  ("resources", .get_server_resources),
  ("list_accounts", .list_accounts),
  ("accounts", .list_accounts),
  ("list_domains", .list_domains),
  ("domains", .list_domains),
  ("get_disk_usage", .get_disk_usage),
  ("disk", .get_disk_usage),
  ("suspend_account", .suspend_account),
  ("suspend", .suspend_account),
  ("unsuspend_account", .unsuspend_account),
  ("unsuspend", .unsuspend_account),
  ("get_bandwidth", .get_bandwidth),
  ("bandwidth", .get_bandwidth),
  ("get_hostname", .get_hostname),
  ("hostname", .get_hostname),
  ("restart_service", .restart_service),
  ("restart", .restart_service)]

/-- The value of `sorted(cmd_map.keys())`; that it is the sorted
permutation of the keys is proved in the claim theorems. -/
def validSorted : List String := [
  "accounts", "bandwidth", "disk", "domains", "get_bandwidth",
  "get_disk_usage", "get_hostname", "get_server_resources", "hostname",
  "list_accounts", "list_domains", "resources", "restart",
  "restart_service", "suspend", "suspend_account", "unsuspend",
  "unsuspend_account"]

/-- Message of the unknown-command ValueError. -/
def unknownMsg (command : String) : String :=
  "Unknown command \x27" ++ command ++ "\x27. Valid: " ++ joinComma validSorted

/-- The validated `account` argument: present, a string, non-blank
after trimming. -/
def accountArg (args : List (String × Json)) : Option String :=
  match args.lookup "account" with
  | some (.str a) => if pyIsBlank a then none else some a
  | _ => none

/-- The validated `service` argument, same shape as `accountArg`. -/
def serviceArg (args : List (String × Json)) : Option String :=
  match args.lookup "service" with
  | some (.str s) => if pyIsBlank s then none else some s
  | _ => none

/-- The router body, after `command = command.lower().strip()`. -/
def dispatch (command : String) (args : List (String × Json)) (resps : List Json) : OpOut :=
  let r0 := resps.getD 0 .null
  match cmd_map.lookup command with
  | none => (.error (.valueError (unknownMsg command)), [])
  | some f =>
    if f = .get_disk_usage || f = .suspend_account || f = .unsuspend_account then
      match accountArg args with
      | none =>
        (.error (.valueError (command ++ " requires a non-empty \x27account\x27 string")), [])
      | some a =>
        if f = .suspend_account then suspend_account a (dget args "reason" (.str "")) r0
        else if f = .get_disk_usage then get_disk_usage a r0
        else unsuspend_account a r0
    else if f = .get_bandwidth then
      get_bandwidth (dget args "account" (.str "")) r0
    else if f = .restart_service then
      match serviceArg args with
      | none =>
        (.error (.valueError "restart_service requires a non-empty \x27service\x27 string"), [])
      | some s => restart_service s r0
    else if f = .get_server_resources then get_server_resources r0 (resps.getD 1 .null)
    else if f = .list_accounts then list_accounts r0
    else if f = .list_domains then list_domains r0
    else get_hostname r0

def execute_command (command : String) (args : List (String × Json))
    (resps : List Json) : OpOut :=
  dispatch (pyStrip (pyLower command)) args resps

end Whm

/-- The `percent_used` field of a successful operation result. -/
def percentOf (o : OpOut) : Option Json :=
  o.1.toOption.bind (fun j => j.lookup "percent_used")

/-! Arithmetic lemmas about the rounding model. -/

theorem roundHalfEven_intCast (n : ℤ) : roundHalfEven ((n : ℚ)) = n := by
  unfold roundHalfEven
  simp only [Int.floor_intCast, sub_self]
  norm_num

theorem round2_intCast (n : ℤ) : round2 ((n : ℚ)) = n := by
  unfold round2
  have h : ((n : ℚ)) * 100 = (((n * 100 : ℤ) : ℚ)) := by push_cast; ring
  rw [h, roundHalfEven_intCast]
  push_cast
  field_simp

theorem roundHalfEven_nonneg (q : ℚ) (h : 0 ≤ q) : 0 ≤ roundHalfEven q := by
  unfold roundHalfEven
  have hf : (0 : ℤ) ≤ ⌊q⌋ := Int.floor_nonneg.mpr h
  dsimp only
  split
  · exact hf
  · split
    · omega
    · split <;> omega

theorem round2_nonneg (q : ℚ) (h : 0 ≤ q) : 0 ≤ round2 q := by
  unfold round2
  have h1 : (0 : ℤ) ≤ roundHalfEven (q * 100) := roundHalfEven_nonneg _ (by positivity)
  have h2 : (0 : ℚ) ≤ (roundHalfEven (q * 100) : ℚ) := by exact_mod_cast h1
  positivity

theorem pct_formula_nonneg (t u : ℚ) (hu : 0 ≤ u) : 0 ≤ round2 (u / max t 1 * 100) := by
  apply round2_nonneg
  have h1 : (0 : ℚ) < max t 1 := lt_max_of_lt_right one_pos
  positivity

theorem pct_at_zero_five : round2 ((5 : ℚ) / max 0 1 * 100) = 500 := by
  have h : (5 : ℚ) / max 0 1 * 100 = ((500 : ℤ) : ℚ) := by
    rw [max_eq_right (by norm_num : (0 : ℚ) ≤ 1)]
    norm_num
  rw [h, round2_intCast]
  norm_num

theorem pct_div_nonneg (u l : ℚ) (hu : 0 ≤ u) (hl : 0 < l) : 0 ≤ round2 (u / l * 100) := by
  apply round2_nonneg
  positivity

/-! None of the embedded primitives can raise ZeroDivisionError: every
denominator in the sources is guarded, by `max(total, 1)` or by an
explicit `limit > 0` branch. -/

theorem noDiv_bind {α β : Type} (m : Except PyErr α) (k : α → Except PyErr β)
    (hm : m ≠ .error .zeroDivisionError) (hk : ∀ a, k a ≠ .error .zeroDivisionError) :
    (m >>= k) ≠ .error .zeroDivisionError := by
  cases m with
  | error e =>
    simp only [bind, Except.bind]
    intro h
    injection h with h2
    exact hm (by rw [h2])
  | ok a =>
    simpa only [bind, Except.bind] using hk a

theorem unwrapData_pm_ne_div (j : Json) : Pm.unwrapData j ≠ .error .zeroDivisionError := by
  cases j <;> simp [Pm.unwrapData]

theorem unwrapData_pbs_ne_div (j : Json) : Pbs.unwrapData j ≠ .error .zeroDivisionError := by
  cases j <;> simp [Pbs.unwrapData]

theorem toNumE_ne_div (j : Json) : toNumE j ≠ .error .zeroDivisionError := by
  cases j <;> simp [toNumE]

theorem storageEntry_ne_div (j : Json) : Pm.storageEntry j ≠ .error .zeroDivisionError := by
  unfold Pm.storageEntry
  apply noDiv_bind _ _ (toNumE_ne_div _)
  intro t
  apply noDiv_bind _ _ (toNumE_ne_div _)
  intro u
  simp [pure, Except.pure]

theorem mapME_ne_div (f : Json → Except PyErr Json)
    (hf : ∀ x, f x ≠ .error .zeroDivisionError) :
    ∀ l, mapME f l ≠ .error .zeroDivisionError := by
  intro l
  induction l with
  | nil => simp [mapME]
  | cons x xs ih =>
    simp only [mapME]
    apply noDiv_bind _ _ (hf x)
    intro y
    apply noDiv_bind _ _ ih
    intro ys
    simp [pure, Except.pure]

theorem list_storage_ne_div (node resp : Json) :
    (Pm.list_storage node resp).1 ≠ .error .zeroDivisionError := by
  unfold Pm.list_storage
  dsimp only
  apply noDiv_bind _ _ (unwrapData_pm_ne_div resp)
  intro d
  apply noDiv_bind _ _ (mapME_ne_div _ storageEntry_ne_div _)
  intro vs
  simp [pure, Except.pure]

theorem pyGet_ne_div (j : Json) (k : String) (d : Json) :
    pyGet j k d ≠ .error .zeroDivisionError := by
  cases j <;> simp [pyGet]

theorem pyIndexNat_ne_div (j : Json) (i : Nat) :
    pyIndexNat j i ≠ .error .zeroDivisionError := by
  cases j <;> simp [pyIndexNat] <;> split <;> simp

theorem pyGtZero_ne_div (j : Json) : pyGtZero j ≠ .error .zeroDivisionError := by
  unfold pyGtZero
  apply noDiv_bind _ _ (toNumE_ne_div j)
  intro q
  simp [pure, Except.pure]

theorem resultHead_ne_div (rv fb : Json) : Whm.resultHead rv fb ≠ .error .zeroDivisionError := by
  unfold Whm.resultHead
  split
  · exact pyIndexNat_ne_div rv 0
  · simp

theorem pctOf_ne_div (usage limit : Json) : Whm.pctOf usage limit ≠ .error .zeroDivisionError := by
  unfold Whm.pctOf
  apply noDiv_bind _ _ (pyGtZero_ne_div limit)
  intro b
  split
  · apply noDiv_bind _ _ (toNumE_ne_div usage)
    intro u
    apply noDiv_bind _ _ (toNumE_ne_div limit)
    intro l
    simp [pure, Except.pure]
  · simp [pure, Except.pure]

theorem whmUnwrap_ne_div (j : Json) : Whm.whmUnwrap j ≠ .error .zeroDivisionError := by
  unfold Whm.whmUnwrap
  split
  · simp
  · cases j with
    | obj kvs =>
      dsimp only
      split
      · split <;> simp
      · simp
    | arr xs =>
      dsimp only
      split <;> simp
    | str s =>
      dsimp only
      split <;> simp
    | null => simp
    | bool b => simp
    | num q => simp

theorem get_disk_usage_ne_div (account : String) (resp : Json) :
    (Whm.get_disk_usage account resp).1 ≠ .error .zeroDivisionError := by
  unfold Whm.get_disk_usage
  dsimp only
  apply noDiv_bind _ _ (whmUnwrap_ne_div resp)
  intro data
  apply noDiv_bind _ _ (pyGet_ne_div data "result" .null)
  intro rv
  apply noDiv_bind _ _ (resultHead_ne_div rv (.obj []))
  intro result
  apply noDiv_bind _ _ (pyGet_ne_div result "diskquota" (.num 0))
  intro usage
  apply noDiv_bind _ _ (pyGet_ne_div result "disklimit" (.num 1))
  intro limit
  apply noDiv_bind _ _ (pctOf_ne_div usage limit)
  intro pct
  apply noDiv_bind _ _ (toNumE_ne_div usage)
  intro umb
  apply noDiv_bind _ _ (toNumE_ne_div limit)
  intro lmb
  simp [pure, Except.pure]

theorem get_datastore_status_ne_div (ds conf usage : Json) :
    (Pbs.get_datastore_status ds conf usage).1 ≠ .error .zeroDivisionError := by
  unfold Pbs.get_datastore_status
  cases h1 : Pbs.unwrapData conf with
  | error e =>
    dsimp only
    intro h
    exact unwrapData_pbs_ne_div conf (h1.trans h)
  | ok d0 =>
    cases h2 : Pbs.unwrapData usage with
    | error e =>
      dsimp only
      intro h
      exact unwrapData_pbs_ne_div usage (h2.trans h)
    | ok us =>
      dsimp only
      apply noDiv_bind _ _ (toNumE_ne_div _)
      intro t
      apply noDiv_bind _ _ (toNumE_ne_div _)
      intro u
      simp [pure, Except.pure]

/-- Evaluation of `get_disk_usage` on a numeric quota/limit response
with a positive limit. -/
theorem gdu_pos_limit (account : String) (u l : ℚ) (h : 0 < l) :
    Whm.get_disk_usage account
      (.obj [("result", .arr [.obj [("diskquota", .num u), ("disklimit", .num l)]])]) =
    (.ok (.obj [
      ("account", .str account),
      ("disk_usage_bytes", .num u),
      ("disk_usage_mb", .num (round2 (u / 1048576))),
      ("disk_limit_bytes", .num l),
      ("disk_limit_mb", .num (round2 (l / 1048576))),
      ("percent_used", .num (round2 (u / l * 100))),
      ("status", .str (if round2 (u / l * 100) < 80 then "ok"
        else if round2 (u / l * 100) < 90 then "warning" else "critical"))]),
     [{ endpoint := "getdiskusage", params := [("user", .str account)] }]) := by
  have hb : decide (0 < l) = true := decide_eq_true h
  simp [Whm.get_disk_usage, Whm.whmUnwrap, Whm.resultHead, Whm.pctOf, pyGet, pyGtZero,
    toNumE, pyEqZero, jget, Json.lookup, pyTruthy, pyIndexNat, hb, bind, Except.bind,
    pure, Except.pure, isDict, List.lookup, Option.getD]

/-- Evaluation of `get_disk_usage` on a numeric quota/limit response
with a nonpositive limit: the percentage is the literal `0`. -/
theorem gdu_nonpos_limit (account : String) (u l : ℚ) (h : ¬ (0 < l)) :
    Whm.get_disk_usage account
      (.obj [("result", .arr [.obj [("diskquota", .num u), ("disklimit", .num l)]])]) =
    (.ok (.obj [
      ("account", .str account),
      ("disk_usage_bytes", .num u),
      ("disk_usage_mb", .num (round2 (u / 1048576))),
      ("disk_limit_bytes", .num l),
      ("disk_limit_mb", .num (round2 (l / 1048576))),
      ("percent_used", .num 0),
      ("status", .str "ok")]),
     [{ endpoint := "getdiskusage", params := [("user", .str account)] }]) := by
  have hb : decide (0 < l) = false := decide_eq_false h
  simp [Whm.get_disk_usage, Whm.whmUnwrap, Whm.resultHead, Whm.pctOf, pyGet, pyGtZero,
    toNumE, pyEqZero, jget, Json.lookup, pyTruthy, pyIndexNat, hb, bind, Except.bind,
    pure, Except.pure, isDict, List.lookup, Option.getD]

/-- C1 (amended).  In the Proxmox and PBS operation functions every
`percent_used` is computed as `round(used / max(total, 1) * 100, 2)`,
which is nonnegative for nonnegative `used`, yields `500.0` at
`total = 0, used = 5`, and can never raise a division error.  WHM's
`get_disk_usage` deviates: it computes
`round(usage / limit * 100, 2) if limit > 0 else 0`, so at
`total = 0, used = 5` the percentage is `0`, still nonnegative and
still without any possible division error. -/
theorem C1_percentage_computations :
    (∀ (node : Json) (t u : ℚ),
      Pm.list_storage node (.obj [("data", .arr [.obj [("total", .num t), ("used", .num u)]])]) =
      (.ok (.obj [("node", node),
        ("storage", .arr [.obj [
          ("storage", .str ""), ("type", .str ""), ("content", .str ""),
          ("status", .str ""), ("active", .num 0),
          ("total_bytes", .num t), ("used_bytes", .num u),
          ("available_bytes", .num 0),
          ("percent_used", .num (round2 (u / max t 1 * 100)))]]),
        ("total", .num 1)]),
       [{ endpoint := "nodes/" ++ pyStrOf node ++ "/storage" }])) ∧
    (∀ (t u : ℚ), 0 ≤ u → 0 ≤ round2 (u / max t 1 * 100)) ∧
    (round2 ((5 : ℚ) / max 0 1 * 100) = 500) ∧
    (∀ (node resp : Json), (Pm.list_storage node resp).1 ≠ .error .zeroDivisionError) ∧
    (∀ (t u a : ℚ),
      Pbs.get_datastore_status (.str "ds1") (.obj [])
        (.obj [("data", .arr [.obj [("store", .str "ds1"), ("total", .num t),
          ("used", .num u), ("avail", .num a)]])]) =
      (.ok (.obj [
        ("datastore", .str "ds1"),
        ("path", .str ""),
        ("comment", .str ""),
        ("total_bytes", .num t),
        ("used_bytes", .num u),
        ("available_bytes", .num a),
        ("percent_used", .num (round2 (u / max t 1 * 100))),
        ("gc_schedule", .str ""),
        ("prune_schedule", .str "")]),
       [{ endpoint := "admin/datastore/ds1" }, { endpoint := "status/datastore-usage" }])) ∧
    (∀ (ds conf usage : Json),
      (Pbs.get_datastore_status ds conf usage).1 ≠ .error .zeroDivisionError) ∧
    (∀ (account : String) (u l : ℚ), 0 < l →
      Whm.get_disk_usage account
        (.obj [("result", .arr [.obj [("diskquota", .num u), ("disklimit", .num l)]])]) =
      (.ok (.obj [
        ("account", .str account),
        ("disk_usage_bytes", .num u),
        ("disk_usage_mb", .num (round2 (u / 1048576))),
        ("disk_limit_bytes", .num l),
        ("disk_limit_mb", .num (round2 (l / 1048576))),
        ("percent_used", .num (round2 (u / l * 100))),
        ("status", .str (if round2 (u / l * 100) < 80 then "ok"
          else if round2 (u / l * 100) < 90 then "warning" else "critical"))]),
       [{ endpoint := "getdiskusage", params := [("user", .str account)] }])) ∧
    (∀ (account : String) (u l : ℚ), ¬ (0 < l) →
      Whm.get_disk_usage account
        (.obj [("result", .arr [.obj [("diskquota", .num u), ("disklimit", .num l)]])]) =
      (.ok (.obj [
        ("account", .str account),
        ("disk_usage_bytes", .num u),
        ("disk_usage_mb", .num (round2 (u / 1048576))),
        ("disk_limit_bytes", .num l),
        ("disk_limit_mb", .num (round2 (l / 1048576))),
        ("percent_used", .num 0),
        ("status", .str "ok")]),
       [{ endpoint := "getdiskusage", params := [("user", .str account)] }])) ∧
    (∀ (u l : ℚ), 0 ≤ u → 0 < l → 0 ≤ round2 (u / l * 100)) ∧
    (∀ (account : String) (resp : Json),
      (Whm.get_disk_usage account resp).1 ≠ .error .zeroDivisionError) := by
  exact ⟨fun node t u => rfl, pct_formula_nonneg, pct_at_zero_five, list_storage_ne_div,
    fun t u a => Prod.ext rfl rfl, get_datastore_status_ne_div, gdu_pos_limit,
    gdu_nonpos_limit, fun u l hu hl => pct_div_nonneg u l hu hl, get_disk_usage_ne_div⟩

/-- C1 (counterexample).  The claim asserts the computed percentage at
`total = 0, used = 5` is `500.0` for every percentage computation of
all three subsystems; WHM's `get_disk_usage` computes `0` there. -/
theorem C1_counterexample :
    percentOf (Whm.get_disk_usage "alice"
      (.obj [("result", .arr [.obj [("diskquota", .num 5), ("disklimit", .num 0)]])])) =
      some (.num 0) ∧
    percentOf (Whm.get_disk_usage "alice"
      (.obj [("result", .arr [.obj [("diskquota", .num 5), ("disklimit", .num 0)]])])) ≠
      some (.num 500) := by
  have h1 : percentOf (Whm.get_disk_usage "alice"
      (.obj [("result", .arr [.obj [("diskquota", .num 5), ("disklimit", .num 0)]])])) =
      some (.num 0) := by
    rw [gdu_nonpos_limit "alice" 5 0 (by norm_num)]
    simp [percentOf, Except.toOption, Json.lookup, List.lookup]
  refine ⟨h1, ?_⟩
  rw [h1]
  intro h
  injection h with h2
  injection h2 with h3
  norm_num at h3

/-- C1 (witness): the amended theorem applied at concrete inputs. -/
theorem C1_witness :
    (0 : ℚ) ≤ round2 ((5 : ℚ) / max 0 1 * 100) ∧
    Whm.get_disk_usage "bob"
      (.obj [("result", .arr [.obj [("diskquota", .num 5), ("disklimit", .num 10)]])]) =
    (.ok (.obj [
      ("account", .str "bob"),
      ("disk_usage_bytes", .num 5),
      ("disk_usage_mb", .num (round2 (5 / 1048576))),
      ("disk_limit_bytes", .num 10),
      ("disk_limit_mb", .num (round2 (10 / 1048576))),
      ("percent_used", .num (round2 (5 / 10 * 100))),
      ("status", .str (if round2 ((5 : ℚ) / 10 * 100) < 80 then "ok"
        else if round2 ((5 : ℚ) / 10 * 100) < 90 then "warning" else "critical"))]),
     [{ endpoint := "getdiskusage", params := [("user", .str "bob")] }]) ∧
    Whm.get_disk_usage "carol"
      (.obj [("result", .arr [.obj [("diskquota", .num 5), ("disklimit", .num 0)]])]) =
    (.ok (.obj [
      ("account", .str "carol"),
      ("disk_usage_bytes", .num 5),
      ("disk_usage_mb", .num (round2 (5 / 1048576))),
      ("disk_limit_bytes", .num 0),
      ("disk_limit_mb", .num (round2 (0 / 1048576))),
      ("percent_used", .num 0),
      ("status", .str "ok")]),
     [{ endpoint := "getdiskusage", params := [("user", .str "carol")] }]) :=
  ⟨C1_percentage_computations.2.1 0 5 (by norm_num),
   C1_percentage_computations.2.2.2.2.2.2.1 "bob" 5 10 (by norm_num),
   C1_percentage_computations.2.2.2.2.2.2.2.1 "carol" 5 0 (by norm_num)⟩

/-! Inversion helpers for successful operation results. -/

theorem bind_ok_inv {α β : Type} (m : Except PyErr α) (k : α → Except PyErr β) (b : β)
    (h : (m >>= k) = .ok b) : ∃ a, m = .ok a ∧ k a = .ok b := by
  cases m with
  | error e => simp [bind, Except.bind] at h
  | ok a => exact ⟨a, rfl, by simpa [bind, Except.bind] using h⟩

theorem pure_ok_inv {β : Type} (x b : β)
    (h : (pure x : Except PyErr β) = .ok b) : x = b := by
  simpa [pure, Except.pure] using h

theorem list_nodes_total (resp j : Json) (h : (Pm.list_nodes resp).1 = .ok j) :
    ∃ l, j.lookup "nodes" = some (.arr l) ∧ j.lookup "total" = some (.num (l.length : ℚ)) := by
  unfold Pm.list_nodes at h
  dsimp only at h
  obtain ⟨d, hd, h⟩ := bind_ok_inv _ _ _ h
  obtain ⟨vs, hvs, h⟩ := bind_ok_inv _ _ _ h
  have hj := pure_ok_inv _ _ h
  subst hj
  exact ⟨vs, rfl, rfl⟩

theorem list_vms_total (node resp j : Json) (h : (Pm.list_vms node resp).1 = .ok j) :
    ∃ l, j.lookup "vms" = some (.arr l) ∧ j.lookup "total" = some (.num (l.length : ℚ)) := by
  unfold Pm.list_vms at h
  dsimp only at h
  obtain ⟨d, hd, h⟩ := bind_ok_inv _ _ _ h
  obtain ⟨vs, hvs, h⟩ := bind_ok_inv _ _ _ h
  have hj := pure_ok_inv _ _ h
  subst hj
  exact ⟨vs, rfl, rfl⟩

theorem list_containers_total (node resp j : Json)
    (h : (Pm.list_containers node resp).1 = .ok j) :
    ∃ l, j.lookup "containers" = some (.arr l) ∧
      j.lookup "total" = some (.num (l.length : ℚ)) := by
  unfold Pm.list_containers at h
  dsimp only at h
  obtain ⟨d, hd, h⟩ := bind_ok_inv _ _ _ h
  obtain ⟨vs, hvs, h⟩ := bind_ok_inv _ _ _ h
  have hj := pure_ok_inv _ _ h
  subst hj
  exact ⟨vs, rfl, rfl⟩

theorem list_storage_total (node resp j : Json) (h : (Pm.list_storage node resp).1 = .ok j) :
    ∃ l, j.lookup "storage" = some (.arr l) ∧ j.lookup "total" = some (.num (l.length : ℚ)) := by
  unfold Pm.list_storage at h
  dsimp only at h
  obtain ⟨d, hd, h⟩ := bind_ok_inv _ _ _ h
  obtain ⟨vs, hvs, h⟩ := bind_ok_inv _ _ _ h
  have hj := pure_ok_inv _ _ h
  subst hj
  exact ⟨vs, rfl, rfl⟩

theorem cluster_total (resp j : Json) (h : (Pm.get_cluster_status resp).1 = .ok j) :
    ∃ l, j.lookup "cluster" = some (.arr l) ∧ j.lookup "total" = some (.num (l.length : ℚ)) := by
  unfold Pm.get_cluster_status at h
  dsimp only at h
  obtain ⟨d, hd, h⟩ := bind_ok_inv _ _ _ h
  have hj := pure_ok_inv _ _ h
  subst hj
  exact ⟨_, rfl, rfl⟩

theorem cluster_resources_total (rt resp j : Json)
    (h : (Pm.list_cluster_resources rt resp).1 = .ok j) :
    ∃ l, j.lookup "resources" = some (.arr l) ∧
      j.lookup "total" = some (.num (l.length : ℚ)) := by
  unfold Pm.list_cluster_resources at h
  dsimp only at h
  obtain ⟨d, hd, h⟩ := bind_ok_inv _ _ _ h
  have hj := pure_ok_inv _ _ h
  subst hj
  exact ⟨_, rfl, rfl⟩

theorem pm_tasks_total (node limit resp j : Json)
    (h : (Pm.list_tasks node limit resp).1 = .ok j) :
    ∃ l, j.lookup "tasks" = some (.arr l) ∧ j.lookup "total" = some (.num (l.length : ℚ)) := by
  unfold Pm.list_tasks at h
  dsimp only at h
  obtain ⟨d, hd, h⟩ := bind_ok_inv _ _ _ h
  have hj := pure_ok_inv _ _ h
  subst hj
  exact ⟨_, rfl, rfl⟩

theorem list_datastores_total (resp j : Json) (h : (Pbs.list_datastores resp).1 = .ok j) :
    ∃ l, j.lookup "datastores" = some (.arr l) ∧
      j.lookup "total" = some (.num (l.length : ℚ)) := by
  unfold Pbs.list_datastores at h
  dsimp only at h
  obtain ⟨d, hd, h⟩ := bind_ok_inv _ _ _ h
  have hj := pure_ok_inv _ _ h
  subst hj
  exact ⟨_, rfl, rfl⟩

theorem snapshots_total (ds bt bi resp j : Json)
    (h : (Pbs.list_datastore_snapshots ds bt bi resp).1 = .ok j) :
    ∃ l, j.lookup "snapshots" = some (.arr l) ∧
      j.lookup "total" = some (.num (l.length : ℚ)) := by
  unfold Pbs.list_datastore_snapshots at h
  dsimp only at h
  obtain ⟨d, hd, h⟩ := bind_ok_inv _ _ _ h
  have hj := pure_ok_inv _ _ h
  subst hj
  exact ⟨_, rfl, rfl⟩

theorem groups_total (ds resp j : Json) (h : (Pbs.list_backup_groups ds resp).1 = .ok j) :
    ∃ l, j.lookup "groups" = some (.arr l) ∧ j.lookup "total" = some (.num (l.length : ℚ)) := by
  unfold Pbs.list_backup_groups at h
  dsimp only at h
  obtain ⟨d, hd, h⟩ := bind_ok_inv _ _ _ h
  have hj := pure_ok_inv _ _ h
  subst hj
  exact ⟨_, rfl, rfl⟩

theorem sync_jobs_total (resp j : Json) (h : (Pbs.list_sync_jobs resp).1 = .ok j) :
    ∃ l, j.lookup "sync_jobs" = some (.arr l) ∧
      j.lookup "total" = some (.num (l.length : ℚ)) := by
  unfold Pbs.list_sync_jobs at h
  dsimp only at h
  obtain ⟨d, hd, h⟩ := bind_ok_inv _ _ _ h
  have hj := pure_ok_inv _ _ h
  subst hj
  exact ⟨_, rfl, rfl⟩

theorem verify_jobs_total (resp j : Json) (h : (Pbs.list_verify_jobs resp).1 = .ok j) :
    ∃ l, j.lookup "verify_jobs" = some (.arr l) ∧
      j.lookup "total" = some (.num (l.length : ℚ)) := by
  unfold Pbs.list_verify_jobs at h
  dsimp only at h
  obtain ⟨d, hd, h⟩ := bind_ok_inv _ _ _ h
  have hj := pure_ok_inv _ _ h
  subst hj
  exact ⟨_, rfl, rfl⟩

theorem pbs_tasks_total (limit resp j : Json) (h : (Pbs.list_tasks limit resp).1 = .ok j) :
    ∃ l, j.lookup "tasks" = some (.arr l) ∧ j.lookup "total" = some (.num (l.length : ℚ)) := by
  unfold Pbs.list_tasks at h
  dsimp only at h
  obtain ⟨d, hd, h⟩ := bind_ok_inv _ _ _ h
  have hj := pure_ok_inv _ _ h
  subst hj
  exact ⟨_, rfl, rfl⟩

theorem accounts_total (resp j : Json) (h : (Whm.list_accounts resp).1 = .ok j) :
    ∃ l, j.lookup "accounts" = some (.arr l) ∧
      j.lookup "total" = some (.num (l.length : ℚ)) := by
  unfold Whm.list_accounts at h
  dsimp only at h
  obtain ⟨d, hd, h⟩ := bind_ok_inv _ _ _ h
  obtain ⟨v, hv, h⟩ := bind_ok_inv _ _ _ h
  obtain ⟨items, hi, h⟩ := bind_ok_inv _ _ _ h
  have hj := pure_ok_inv _ _ h
  subst hj
  exact ⟨_, rfl, rfl⟩

theorem domains_total (resp j : Json) (h : (Whm.list_domains resp).1 = .ok j) :
    ∃ l, j.lookup "domains" = some (.arr l) ∧
      j.lookup "total" = some (.num (l.length : ℚ)) := by
  unfold Whm.list_domains at h
  dsimp only at h
  obtain ⟨d, hd, h⟩ := bind_ok_inv _ _ _ h
  obtain ⟨v, hv, h⟩ := bind_ok_inv _ _ _ h
  obtain ⟨items, hi, h⟩ := bind_ok_inv _ _ _ h
  have hj := pure_ok_inv _ _ h
  subst hj
  exact ⟨_, rfl, rfl⟩

theorem bandwidth_total (account resp j : Json) (h : (Whm.get_bandwidth account resp).1 = .ok j) :
    ∃ l, j.lookup "bandwidth" = some (.arr l) ∧
      j.lookup "total_entries" = some (.num (l.length : ℚ)) ∧
      j.lookup "total" = none := by
  unfold Whm.get_bandwidth at h
  dsimp only at h
  obtain ⟨d, hd, h⟩ := bind_ok_inv _ _ _ h
  obtain ⟨v, hv, h⟩ := bind_ok_inv _ _ _ h
  obtain ⟨items, hi, h⟩ := bind_ok_inv _ _ _ h
  have hj := pure_ok_inv _ _ h
  subst hj
  exact ⟨_, rfl, rfl, rfl⟩

/-- C2 (amended).  Every successful result of a list-returning
operation in the three subsystems carries a count field equal to the
length of its list field; the count field is named `total` everywhere
except WHM's `get_bandwidth`, whose count field is named
`total_entries` (and which has no `total` key at all). -/
theorem C2_list_totals :
    (∀ resp j, (Pm.list_nodes resp).1 = .ok j →
      ∃ l, j.lookup "nodes" = some (.arr l) ∧
        j.lookup "total" = some (.num (l.length : ℚ))) ∧
    (∀ node resp j, (Pm.list_vms node resp).1 = .ok j →
      ∃ l, j.lookup "vms" = some (.arr l) ∧
        j.lookup "total" = some (.num (l.length : ℚ))) ∧
    (∀ node resp j, (Pm.list_containers node resp).1 = .ok j →
      ∃ l, j.lookup "containers" = some (.arr l) ∧
        j.lookup "total" = some (.num (l.length : ℚ))) ∧
    (∀ node resp j, (Pm.list_storage node resp).1 = .ok j →
      ∃ l, j.lookup "storage" = some (.arr l) ∧
        j.lookup "total" = some (.num (l.length : ℚ))) ∧
    (∀ resp j, (Pm.get_cluster_status resp).1 = .ok j →
      ∃ l, j.lookup "cluster" = some (.arr l) ∧
        j.lookup "total" = some (.num (l.length : ℚ))) ∧
    (∀ rt resp j, (Pm.list_cluster_resources rt resp).1 = .ok j →
      ∃ l, j.lookup "resources" = some (.arr l) ∧
        j.lookup "total" = some (.num (l.length : ℚ))) ∧
    (∀ node limit resp j, (Pm.list_tasks node limit resp).1 = .ok j →
      ∃ l, j.lookup "tasks" = some (.arr l) ∧
        j.lookup "total" = some (.num (l.length : ℚ))) ∧
    (∀ resp j, (Pbs.list_datastores resp).1 = .ok j →
      ∃ l, j.lookup "datastores" = some (.arr l) ∧
        j.lookup "total" = some (.num (l.length : ℚ))) ∧
    (∀ ds bt bi resp j, (Pbs.list_datastore_snapshots ds bt bi resp).1 = .ok j →
      ∃ l, j.lookup "snapshots" = some (.arr l) ∧
        j.lookup "total" = some (.num (l.length : ℚ))) ∧
    (∀ ds resp j, (Pbs.list_backup_groups ds resp).1 = .ok j →
      ∃ l, j.lookup "groups" = some (.arr l) ∧
        j.lookup "total" = some (.num (l.length : ℚ))) ∧
    (∀ resp j, (Pbs.list_sync_jobs resp).1 = .ok j →
      ∃ l, j.lookup "sync_jobs" = some (.arr l) ∧
        j.lookup "total" = some (.num (l.length : ℚ))) ∧
    (∀ resp j, (Pbs.list_verify_jobs resp).1 = .ok j →
      ∃ l, j.lookup "verify_jobs" = some (.arr l) ∧
        j.lookup "total" = some (.num (l.length : ℚ))) ∧
    (∀ limit resp j, (Pbs.list_tasks limit resp).1 = .ok j →
      ∃ l, j.lookup "tasks" = some (.arr l) ∧
        j.lookup "total" = some (.num (l.length : ℚ))) ∧
    (∀ resp j, (Whm.list_accounts resp).1 = .ok j →
      ∃ l, j.lookup "accounts" = some (.arr l) ∧
        j.lookup "total" = some (.num (l.length : ℚ))) ∧
    (∀ resp j, (Whm.list_domains resp).1 = .ok j →
      ∃ l, j.lookup "domains" = some (.arr l) ∧
        j.lookup "total" = some (.num (l.length : ℚ))) ∧
    (∀ account resp j, (Whm.get_bandwidth account resp).1 = .ok j →
      ∃ l, j.lookup "bandwidth" = some (.arr l) ∧
        j.lookup "total_entries" = some (.num (l.length : ℚ)) ∧
        j.lookup "total" = none) :=
  ⟨list_nodes_total, list_vms_total, list_containers_total, list_storage_total,
   cluster_total, cluster_resources_total, pm_tasks_total, list_datastores_total,
   snapshots_total, groups_total, sync_jobs_total, verify_jobs_total, pbs_tasks_total,
   accounts_total, domains_total, bandwidth_total⟩

/-- C2 (counterexample).  `get_bandwidth` returns its count under the
key `total_entries`; there is no `total` key, contradicting the claim
that every list operation returns a count field named `total`. -/
theorem C2_counterexample :
    (Whm.get_bandwidth (.str "") (.obj [("bandwidth", .arr [])])).1 =
      .ok (.obj [("bandwidth", .arr []), ("total_entries", .num 0)]) ∧
    (Json.obj [("bandwidth", .arr []), ("total_entries", .num 0)]).lookup "total" = none ∧
    (Json.obj [("bandwidth", .arr []), ("total_entries", .num 0)]).lookup "total_entries" =
      some (.num 0) := ⟨rfl, rfl, rfl⟩

/-- C2 (witness): the amended theorem applied to concrete responses. -/
theorem C2_witness :
    (∃ l, (Json.obj [("node", .str "pve1"),
        ("vms", .arr []), ("total", .num 0)]).lookup "vms" = some (.arr l) ∧
      (Json.obj [("node", .str "pve1"),
        ("vms", .arr []), ("total", .num 0)]).lookup "total" =
        some (.num (l.length : ℚ))) ∧
    (∃ l, (Json.obj [("bandwidth", .arr []), ("total_entries", .num 0)]).lookup "bandwidth" =
        some (.arr l) ∧
      (Json.obj [("bandwidth", .arr []), ("total_entries", .num 0)]).lookup "total_entries" =
        some (.num (l.length : ℚ)) ∧
      (Json.obj [("bandwidth", .arr []), ("total_entries", .num 0)]).lookup "total" = none) :=
  ⟨C2_list_totals.2.1 (.str "pve1") (.obj [("data", .arr [])])
      (.obj [("node", .str "pve1"), ("vms", .arr []), ("total", .num 0)]) rfl,
   (C2_list_totals.2.2.2.2.2.2.2.2.2.2.2.2.2.2.2) (.str "")
      (.obj [("bandwidth", .arr [])])
      (.obj [("bandwidth", .arr []), ("total_entries", .num 0)]) rfl⟩

/-! Lemmas about dropped entries for the list-shape claims. -/

theorem filter_isDict_idem (xs : List Json) :
    (xs.filter isDict).filter isDict = xs.filter isDict := by
  simp [List.filter_filter]

theorem filter_isDict_keys (kvs : List (String × Json)) :
    (kvs.map (fun kv => Json.str kv.1)).filter isDict = [] := by
  induction kvs with
  | nil => rfl
  | cons kv rest ih => simpa [List.filter, isDict] using ih

theorem filter_isDict_chars (cs : List Char) :
    (cs.map (fun c => Json.str (String.mk [c]))).filter isDict = [] := by
  induction cs with
  | nil => rfl
  | cons c rest ih => simp [List.filter, isDict, ih]

theorem isDict_obj (kvs : List (String × Json)) : isDict (.obj kvs) = true := rfl

/-- C3 (amended).  Proxmox/PBS list operations guard the response with
an `isinstance(..., list)` check, so any non-list value for the
list-valued field produces an empty list with `total` 0 and no error.
WHM list operations iterate the field without that guard: a dict or a
string still produces an empty list (keys/characters are non-dict
entries and are dropped), but null, a number or a boolean raises a
TypeError.  Non-dict entries inside a list-valued response are dropped
by every subsystem. -/
theorem C3_nonlist_responses :
    (∀ (node v : Json), isList v = false →
      Pm.list_vms node (.obj [("data", v)]) =
      (.ok (.obj [("node", node), ("vms", .arr []), ("total", .num 0)]),
       [{ endpoint := "nodes/" ++ pyStrOf node ++ "/qemu" }])) ∧
    (∀ (v : Json), isList v = false →
      Pbs.list_datastores (.obj [("data", v)]) =
      (.ok (.obj [("datastores", .arr []), ("total", .num 0)]),
       [{ endpoint := "admin/datastore" }])) ∧
    (∀ (node : Json) (xs : List Json),
      Pm.list_vms node (.obj [("data", .arr xs)]) =
      Pm.list_vms node (.obj [("data", .arr (xs.filter isDict))])) ∧
    (∀ (xs : List Json),
      Whm.list_accounts (.obj [("acct", .arr xs)]) =
      Whm.list_accounts (.obj [("acct", .arr (xs.filter isDict))])) ∧
    (∀ (kvs : List (String × Json)),
      Whm.list_accounts (.obj [("acct", .obj kvs)]) =
      (.ok (.obj [("accounts", .arr []), ("total", .num 0)]),
       [{ endpoint := "listaccts", params := [("api.version", .str "1")] }])) ∧
    (∀ (s : String),
      Whm.list_accounts (.obj [("acct", .str s)]) =
      (.ok (.obj [("accounts", .arr []), ("total", .num 0)]),
       [{ endpoint := "listaccts", params := [("api.version", .str "1")] }])) ∧
    (Whm.list_accounts (.obj [("acct", .null)]) =
      (.error (.typeError "object is not iterable"),
       [{ endpoint := "listaccts", params := [("api.version", .str "1")] }])) := by
  refine ⟨?_, ?_, ?_, ?_, ?_, ?_, rfl⟩
  · intro node v hv
    cases v with
    | arr xs => simp [isList] at hv
    | null => rfl
    | bool b => rfl
    | num q => rfl
    | str s => rfl
    | obj kvs => rfl
  · intro v hv
    cases v with
    | arr xs => simp [isList] at hv
    | null => rfl
    | bool b => rfl
    | num q => rfl
    | str s => rfl
    | obj kvs => rfl
  · intro node xs
    unfold Pm.list_vms
    simp [Pm.unwrapData, jget, Json.lookup, List.lookup, Option.getD, asItems,
      bind, Except.bind, Functor.map, Except.map, filter_isDict_idem]
  · intro xs
    unfold Whm.list_accounts
    simp [Whm.whmUnwrap, pyGet, pyIter, pyEqZero, jget, Json.lookup, List.lookup,
      Option.getD, isDict_obj, bind, Except.bind, pure, Except.pure, Functor.map,
      Except.map, filter_isDict_idem]
  · intro kvs
    unfold Whm.list_accounts
    simp [Whm.whmUnwrap, pyGet, pyIter, pyEqZero, jget, Json.lookup, List.lookup,
      Option.getD, isDict_obj, bind, Except.bind, pure, Except.pure, Functor.map,
      Except.map, filter_isDict_keys]
  · intro s
    unfold Whm.list_accounts
    simp [Whm.whmUnwrap, pyGet, pyIter, pyEqZero, jget, Json.lookup, List.lookup,
      Option.getD, isDict_obj, bind, Except.bind, pure, Except.pure, Functor.map,
      Except.map, filter_isDict_chars]

/-- C3 (counterexample).  The claim says a null list field yields an
empty result and never an error; WHM's `list_accounts` raises a
TypeError on `{"acct": null}` because `for acct in None` is illegal. -/
theorem C3_counterexample :
    Whm.list_accounts (.obj [("acct", .null)]) =
      (.error (.typeError "object is not iterable"),
       [{ endpoint := "listaccts", params := [("api.version", .str "1")] }]) := rfl

/-- C3 (witness): the amended theorem applied at concrete inputs. -/
theorem C3_witness :
    Pm.list_vms (.str "pve1") (.obj [("data", .null)]) =
      (.ok (.obj [("node", .str "pve1"), ("vms", .arr []), ("total", .num 0)]),
       [{ endpoint := "nodes/pve1/qemu" }]) ∧
    Pbs.list_datastores (.obj [("data", .obj [("a", .num 1)])]) =
      (.ok (.obj [("datastores", .arr []), ("total", .num 0)]),
       [{ endpoint := "admin/datastore" }]) :=
  ⟨C3_nonlist_responses.1 (.str "pve1") .null rfl,
   C3_nonlist_responses.2.1 (.obj [("a", .num 1)]) rfl⟩

/-- C4 (amended).  Command resolution first lower-cases and trims the
command string, so any two spellings with the same normal form behave
identically for every argument mapping; every alias pair of the
Proxmox table resolves to the same operation function; and alias pairs
behave identically on every argument mapping that passes validation
(for `list_vms`/`vms`, any mapping with a truthy `node`).  On mappings
that fail validation the results differ only in the command name
echoed inside the error message. -/
theorem C4_alias_dispatch :
    (∀ (c1 c2 : String) (args : List (String × Json)) (resps : List Json),
      pyStrip (pyLower c1) = pyStrip (pyLower c2) →
      Pm.execute_command c1 args resps = Pm.execute_command c2 args resps) ∧
    (Pm.cmd_map.lookup "list_nodes" = Pm.cmd_map.lookup "nodes" ∧
     Pm.cmd_map.lookup "get_node_status" = Pm.cmd_map.lookup "node_status" ∧
     Pm.cmd_map.lookup "list_vms" = Pm.cmd_map.lookup "vms" ∧
     Pm.cmd_map.lookup "get_vm_status" = Pm.cmd_map.lookup "vm_status" ∧
     Pm.cmd_map.lookup "list_containers" = Pm.cmd_map.lookup "containers" ∧
     Pm.cmd_map.lookup "list_storage" = Pm.cmd_map.lookup "storage" ∧
     Pm.cmd_map.lookup "get_cluster_status" = Pm.cmd_map.lookup "cluster" ∧
     Pm.cmd_map.lookup "list_cluster_resources" = Pm.cmd_map.lookup "cluster_resources" ∧
     Pm.cmd_map.lookup "list_tasks" = Pm.cmd_map.lookup "tasks") ∧
    (∀ (args : List (String × Json)) (resps : List Json),
      pyTruthy (dget args "node" (.str "")) = true →
      Pm.execute_command "LIST_VMS" args resps = Pm.execute_command "vms" args resps) := by
  refine ⟨?_, ⟨rfl, rfl, rfl, rfl, rfl, rfl, rfl, rfl, rfl⟩, ?_⟩
  · intro c1 c2 args resps h
    unfold Pm.execute_command
    rw [h]
  · intro args resps h
    unfold Pm.execute_command
    rw [show pyStrip (pyLower "LIST_VMS") = "list_vms" from rfl,
        show pyStrip (pyLower "vms") = "vms" from rfl]
    unfold Pm.dispatch
    simp [Pm.cmd_map, List.lookup, h]

/-- C4 (counterexample).  With an empty argument mapping the alias
pair produces different results: the validation error message embeds
the command name as given (`list_vms requires ...` vs
`vms requires ...`), so the two calls are not identical for every
argument mapping. -/
theorem C4_counterexample :
    Pm.execute_command "list_vms" [] [] ≠ Pm.execute_command "vms" [] [] := by
  intro h
  have h1 : Pm.execute_command "list_vms" [] [] =
      (.error (.valueError "list_vms requires a \x27node\x27 argument"), []) := rfl
  have h2 : Pm.execute_command "vms" [] [] =
      (.error (.valueError "vms requires a \x27node\x27 argument"), []) := rfl
  rw [h1, h2] at h
  have h3 := congrArg Prod.fst h
  simp only [Prod.fst] at h3
  injection h3 with h4
  injection h4 with h5
  exact absurd h5 (by decide)

/-- C4 (witness): the amended theorem applied at concrete inputs. -/
theorem C4_witness :
    Pm.execute_command " LIST_VMS " [("node", .str "pve1")] [] =
      Pm.execute_command "list_vms" [("node", .str "pve1")] [] ∧
    Pm.execute_command "LIST_VMS" [("node", .str "pve1")] [] =
      Pm.execute_command "vms" [("node", .str "pve1")] [] :=
  ⟨C4_alias_dispatch.1 " LIST_VMS " "list_vms" [("node", .str "pve1")] [] rfl,
   C4_alias_dispatch.2.2 [("node", .str "pve1")] [] rfl⟩

/-- C5.  `restart_service` accepts exactly
{httpd, exim, mysql, named, ftpd, sshd, cpsrvd}: any other service
name raises a ValueError with zero requests issued, and any allowed
name issues exactly one request to `restartservice`. -/
theorem C5_restart_allowlist :
    (Whm.allowedServices = ["httpd", "exim", "mysql", "named", "ftpd", "sshd", "cpsrvd"]) ∧
    (∀ (service : String) (resp : Json), service ∈ Whm.allowedServices →
      (Whm.restart_service service resp).2 =
        [{ endpoint := "restartservice", params := [("service", .str service)] }]) ∧
    (∀ (service : String) (resp : Json), service ∉ Whm.allowedServices →
      Whm.restart_service service resp =
        (.error (.valueError ("Service \x27" ++ service ++ "\x27 not allowed. Valid: " ++
          joinComma Whm.allowedSorted)), [])) ∧
    sortedStr Whm.allowedSorted = true ∧
    Whm.allowedSorted.Perm Whm.allowedServices := by
  refine ⟨rfl, ?_, ?_, by decide, by decide⟩
  · intro service resp h
    simp [Whm.restart_service, h]
  · intro service resp h
    simp [Whm.restart_service, h]

/-- C5 (witness): `telnet` is rejected with no request; `httpd` issues
exactly one request. -/
theorem C5_witness :
    Whm.restart_service "telnet" .null =
      (.error (.valueError ("Service \x27telnet\x27 not allowed. Valid: " ++
        joinComma Whm.allowedSorted)), []) ∧
    (Whm.restart_service "httpd" .null).2 =
      [{ endpoint := "restartservice", params := [("service", .str "httpd")] }] :=
  ⟨C5_restart_allowlist.2.2.1 "telnet" .null (by decide),
   C5_restart_allowlist.2.1 "httpd" .null (by decide)⟩

/-- C6.  The `run_prune` request body always contains `backup-type`
and `backup-id`, and contains each `keep-*` key exactly when the
corresponding argument is greater than zero; in particular
`keep_last=0, keep_daily=7` produces a body with `keep-daily` and
without `keep-last`. -/
theorem C6_prune_body :
    (∀ resp : Json,
      (Pbs.run_prune (.str "ds1") (.str "vm") (.str "100") (.num 0) (.num 7) (.num 0)
        (.num 0) (.num 0) resp).2 =
      [{ endpoint := "admin/datastore/ds1/prune", method := "POST",
         body := some [("backup-type", .str "vm"), ("backup-id", .str "100"),
                       ("keep-daily", .num 7)] }]) ∧
    (∀ (bt bi : Json) (kl kd kw km ky : ℚ),
      ∃ L, Pbs.pruneBody bt bi (.num kl) (.num kd) (.num kw) (.num km) (.num ky) = .ok L ∧
        (∀ (ds resp : Json),
          (Pbs.run_prune ds bt bi (.num kl) (.num kd) (.num kw) (.num km) (.num ky) resp).2 =
          [{ endpoint := "admin/datastore/" ++ pyStrOf ds ++ "/prune", method := "POST",
             body := some L }]) ∧
        "backup-type" ∈ L.map Prod.fst ∧
        "backup-id" ∈ L.map Prod.fst ∧
        ("keep-last" ∈ L.map Prod.fst ↔ 0 < kl) ∧
        ("keep-daily" ∈ L.map Prod.fst ↔ 0 < kd) ∧
        ("keep-weekly" ∈ L.map Prod.fst ↔ 0 < kw) ∧
        ("keep-monthly" ∈ L.map Prod.fst ↔ 0 < km) ∧
        ("keep-yearly" ∈ L.map Prod.fst ↔ 0 < ky)) := by
  refine ⟨fun resp => rfl, ?_⟩
  intro bt bi kl kd kw km ky
  refine ⟨[("backup-type", bt), ("backup-id", bi)] ++
    (if 0 < kl then [("keep-last", Json.num kl)] else []) ++
    (if 0 < kd then [("keep-daily", Json.num kd)] else []) ++
    (if 0 < kw then [("keep-weekly", Json.num kw)] else []) ++
    (if 0 < km then [("keep-monthly", Json.num km)] else []) ++
    (if 0 < ky then [("keep-yearly", Json.num ky)] else []), ?_, ?_, ?_, ?_, ?_, ?_, ?_, ?_, ?_⟩
  · by_cases h1 : 0 < kl <;> by_cases h2 : 0 < kd <;> by_cases h3 : 0 < kw <;>
      by_cases h4 : 0 < km <;> by_cases h5 : 0 < ky <;>
      simp [Pbs.pruneBody, pyGtZero, toNumE, bind, Except.bind, pure, Except.pure,
        h1, h2, h3, h4, h5, List.append_assoc]
  · intro ds resp
    unfold Pbs.run_prune
    have h1 : Pbs.pruneBody bt bi (.num kl) (.num kd) (.num kw) (.num km) (.num ky) =
        .ok ([("backup-type", bt), ("backup-id", bi)] ++
          (if 0 < kl then [("keep-last", Json.num kl)] else []) ++
          (if 0 < kd then [("keep-daily", Json.num kd)] else []) ++
          (if 0 < kw then [("keep-weekly", Json.num kw)] else []) ++
          (if 0 < km then [("keep-monthly", Json.num km)] else []) ++
          (if 0 < ky then [("keep-yearly", Json.num ky)] else [])) := by
      by_cases h1 : 0 < kl <;> by_cases h2 : 0 < kd <;> by_cases h3 : 0 < kw <;>
        by_cases h4 : 0 < km <;> by_cases h5 : 0 < ky <;>
        simp [Pbs.pruneBody, pyGtZero, toNumE, bind, Except.bind, pure, Except.pure,
          h1, h2, h3, h4, h5, List.append_assoc]
    rw [h1]
  · by_cases h1 : 0 < kl <;> by_cases h2 : 0 < kd <;> by_cases h3 : 0 < kw <;>
      by_cases h4 : 0 < km <;> by_cases h5 : 0 < ky <;> simp [h1, h2, h3, h4, h5]
  · by_cases h1 : 0 < kl <;> by_cases h2 : 0 < kd <;> by_cases h3 : 0 < kw <;>
      by_cases h4 : 0 < km <;> by_cases h5 : 0 < ky <;> simp [h1, h2, h3, h4, h5]
  · by_cases h1 : 0 < kl <;> by_cases h2 : 0 < kd <;> by_cases h3 : 0 < kw <;>
      by_cases h4 : 0 < km <;> by_cases h5 : 0 < ky <;> simp [h1, h2, h3, h4, h5]
  · by_cases h1 : 0 < kl <;> by_cases h2 : 0 < kd <;> by_cases h3 : 0 < kw <;>
      by_cases h4 : 0 < km <;> by_cases h5 : 0 < ky <;> simp [h1, h2, h3, h4, h5]
  · by_cases h1 : 0 < kl <;> by_cases h2 : 0 < kd <;> by_cases h3 : 0 < kw <;>
      by_cases h4 : 0 < km <;> by_cases h5 : 0 < ky <;> simp [h1, h2, h3, h4, h5]
  · by_cases h1 : 0 < kl <;> by_cases h2 : 0 < kd <;> by_cases h3 : 0 < kw <;>
      by_cases h4 : 0 < km <;> by_cases h5 : 0 < ky <;> simp [h1, h2, h3, h4, h5]
  · by_cases h1 : 0 < kl <;> by_cases h2 : 0 < kd <;> by_cases h3 : 0 < kw <;>
      by_cases h4 : 0 < km <;> by_cases h5 : 0 < ky <;> simp [h1, h2, h3, h4, h5]

/-- C7 (amended).  For every vmid-requiring Proxmox command, with a
truthy `node` argument: a missing (or null) `vmid` raises a
missing-argument ValueError with zero requests; a present `vmid` is
coerced with `int(...)` before the operation runs, so the string
`"100"` behaves exactly like the integer `100`; and a non-coercible
string such as `"abc"` raises a ValueError (Python's `int()` coercion
failure — not a TypeError) with zero requests. -/
theorem C7_vmid_validation :
    (∀ cmd, cmd ∈ ["get_vm_status", "vm_status", "start_vm", "stop_vm", "reboot_vm",
        "shutdown_vm", "start_container", "stop_container", "reboot_container"] →
      ∀ (args : List (String × Json)) (resps : List Json),
        pyTruthy (dget args "node" (.str "")) = true →
        (args.lookup "vmid").getD .null = .null →
        Pm.execute_command cmd args resps =
          (.error (.valueError (cmd ++ " requires a \x27vmid\x27 argument")), [])) ∧
    (pyInt (.str "100") = .ok 100 ∧ pyInt (.num 100) = .ok 100) ∧
    (∀ cmd, cmd ∈ ["get_vm_status", "vm_status", "start_vm", "stop_vm", "reboot_vm",
        "shutdown_vm", "start_container", "stop_container", "reboot_container"] →
      ∀ (args : List (String × Json)) (resps : List Json),
        Pm.execute_command cmd (("vmid", .str "100") :: args) resps =
        Pm.execute_command cmd (("vmid", .num 100) :: args) resps) ∧
    (∀ resps : List Json,
      Pm.execute_command "start_vm" [("node", .str "pve1"), ("vmid", .str "100")] resps =
        Pm.start_vm (.str "pve1") 100 (resps.getD 0 .null)) ∧
    (∀ cmd, cmd ∈ ["get_vm_status", "vm_status", "start_vm", "stop_vm", "reboot_vm",
        "shutdown_vm", "start_container", "stop_container", "reboot_container"] →
      ∀ (args : List (String × Json)) (resps : List Json),
        pyTruthy (dget args "node" (.str "")) = true →
        Pm.execute_command cmd (("vmid", .str "abc") :: args) resps =
          (.error (.valueError "invalid literal for int() with base 10: \x27abc\x27"), [])) := by
  refine ⟨?_, ⟨rfl, rfl⟩, ?_, fun resps => rfl, ?_⟩
  · intro cmd hc args resps h hv
    fin_cases hc <;>
      simp [Pm.execute_command, Pm.dispatch, Pm.cmd_map, List.lookup, pyStrip, pyLower,
        pyCharLower, h, hv]
  · intro cmd hc args resps
    fin_cases hc <;>
      simp [Pm.execute_command, Pm.dispatch, Pm.cmd_map, List.lookup, pyStrip, pyLower,
        pyCharLower, dget, pyInt, pyTruthy, digitsVal, ratTrunc]
  · intro cmd hc args resps h
    simp only [dget] at h
    fin_cases hc <;>
      simp [Pm.execute_command, Pm.dispatch, Pm.cmd_map, List.lookup, pyStrip, pyLower,
        pyCharLower, dget, pyInt, digitsVal, h]

/-- C7 (counterexample).  The claim says a non-coercible vmid such as
`"abc"` raises a type error; the code's `int("abc")` raises a
ValueError, and the raised exception is not a TypeError. -/
theorem C7_counterexample :
    Pm.execute_command "start_vm" [("node", .str "pve1"), ("vmid", .str "abc")] [] =
      (.error (.valueError "invalid literal for int() with base 10: \x27abc\x27"), []) ∧
    isTypeError
      (Pm.execute_command "start_vm" [("node", .str "pve1"), ("vmid", .str "abc")] []).1 =
      false := ⟨rfl, rfl⟩

/-- C7 (witness): the amended theorem applied at concrete inputs. -/
theorem C7_witness :
    Pm.execute_command "start_vm" [("node", .str "pve1")] [] =
      (.error (.valueError "start_vm requires a \x27vmid\x27 argument"), []) ∧
    Pm.execute_command "start_vm" [("vmid", .str "100"), ("node", .str "pve1")] [] =
      Pm.execute_command "start_vm" [("vmid", .num 100), ("node", .str "pve1")] [] ∧
    Pm.execute_command "start_vm" [("vmid", .str "abc"), ("node", .str "pve1")] [] =
      (.error (.valueError "invalid literal for int() with base 10: \x27abc\x27"), []) :=
  ⟨C7_vmid_validation.1 "start_vm" (by decide) [("node", .str "pve1")] [] rfl rfl,
   C7_vmid_validation.2.2.1 "start_vm" (by decide) [("node", .str "pve1")] [],
   C7_vmid_validation.2.2.2.2 "start_vm" (by decide) [("node", .str "pve1")] [] rfl⟩

/-- The joined name list mentions every name, in order, after any
prefix. -/
theorem mentions_join : ∀ (ns : List String) (pre : List Char),
    MentionsInOrder (pre ++ (joinComma ns).data) ns := by
  intro ns
  induction ns with
  | nil => intro pre; exact .nil _
  | cons n rest ih =>
    intro pre
    cases rest with
    | nil =>
      have h : pre ++ (joinComma [n]).data = pre ++ n.data ++ ([] : List Char) := by
        simp [joinComma]
      rw [h]
      exact .cons pre n [] [] (.nil [])
    | cons m rest2 =>
      have h : pre ++ (joinComma (n :: m :: rest2)).data =
          pre ++ n.data ++ (", ".data ++ (joinComma (m :: rest2)).data) := by
        simp [joinComma, String.data_append, List.append_assoc]
      rw [h]
      exact .cons pre n _ _ (ih (", ".data))

theorem pm_unknownMsg_mentions (c : String) :
    MentionsInOrder (Pm.unknownMsg c).data Pm.validSorted := by
  unfold Pm.unknownMsg
  rw [String.data_append]
  exact mentions_join _ _

theorem pbs_unknownMsg_mentions (c : String) :
    MentionsInOrder (Pbs.unknownMsg c).data Pbs.validSorted := by
  unfold Pbs.unknownMsg
  rw [String.data_append]
  exact mentions_join _ _

theorem whm_unknownMsg_mentions (c : String) :
    MentionsInOrder (Whm.unknownMsg c).data Whm.validSorted := by
  unfold Whm.unknownMsg
  rw [String.data_append]
  exact mentions_join _ _

/-- C8.  In each subsystem, a command whose normalized form is not in
the routing table raises a ValueError whose message embeds every valid
command name in sorted order, and no request is issued (no operation
function runs).  The embedded name list is exactly the sorted
permutation of the routing-table keys. -/
theorem C8_unknown_command :
    ((∀ (cmd : String) (args : List (String × Json)) (resps : List Json),
        Pm.cmd_map.lookup (pyStrip (pyLower cmd)) = none →
        Pm.execute_command cmd args resps =
          (.error (.valueError (Pm.unknownMsg (pyStrip (pyLower cmd)))), [])) ∧
      (∀ c : String, MentionsInOrder (Pm.unknownMsg c).data Pm.validSorted) ∧
      Pm.validSorted.Perm (Pm.cmd_map.map Prod.fst) ∧
      sortedStr Pm.validSorted = true) ∧
    ((∀ (cmd : String) (args : List (String × Json)) (resps : List Json),
        Pbs.cmd_map.lookup (pyStrip (pyLower cmd)) = none →
        Pbs.execute_command cmd args resps =
          (.error (.valueError (Pbs.unknownMsg (pyStrip (pyLower cmd)))), [])) ∧
      (∀ c : String, MentionsInOrder (Pbs.unknownMsg c).data Pbs.validSorted) ∧
      Pbs.validSorted.Perm (Pbs.cmd_map.map Prod.fst) ∧
      sortedStr Pbs.validSorted = true) ∧
    ((∀ (cmd : String) (args : List (String × Json)) (resps : List Json),
        Whm.cmd_map.lookup (pyStrip (pyLower cmd)) = none →
        Whm.execute_command cmd args resps =
          (.error (.valueError (Whm.unknownMsg (pyStrip (pyLower cmd)))), [])) ∧
      (∀ c : String, MentionsInOrder (Whm.unknownMsg c).data Whm.validSorted) ∧
      Whm.validSorted.Perm (Whm.cmd_map.map Prod.fst) ∧
      sortedStr Whm.validSorted = true) := by
  refine ⟨⟨?_, pm_unknownMsg_mentions, by decide, by decide⟩,
          ⟨?_, pbs_unknownMsg_mentions, by decide, by decide⟩,
          ⟨?_, whm_unknownMsg_mentions, by decide, by decide⟩⟩
  · intro cmd args resps h
    unfold Pm.execute_command Pm.dispatch
    rw [h]
  · intro cmd args resps h
    unfold Pbs.execute_command Pbs.dispatch
    rw [h]
  · intro cmd args resps h
    unfold Whm.execute_command Whm.dispatch
    rw [h]

/-- C8 (witness): `frobnicate` is unknown to all three dispatchers. -/
theorem C8_witness :
    Pm.execute_command "frobnicate" [] [] =
      (.error (.valueError (Pm.unknownMsg "frobnicate")), []) ∧
    Pbs.execute_command "frobnicate" [] [] =
      (.error (.valueError (Pbs.unknownMsg "frobnicate")), []) ∧
    Whm.execute_command "frobnicate" [] [] =
      (.error (.valueError (Whm.unknownMsg "frobnicate")), []) :=
  ⟨C8_unknown_command.1.1 "frobnicate" [] [] rfl,
   C8_unknown_command.2.1.1 "frobnicate" [] [] rfl,
   C8_unknown_command.2.2.1 "frobnicate" [] [] rfl⟩

/-- C9.  `get_datastore_status` issues exactly two requests — the
datastore config and the datastore-usage listing, in that order — and
joins them by the first usage entry whose `store` equals the requested
name; when no entry matches, the byte counters and the percentage are
all zero. -/
theorem C9_datastore_status :
    (∀ (ds conf usage j : Json), (Pbs.get_datastore_status ds conf usage).1 = .ok j →
      (Pbs.get_datastore_status ds conf usage).2 =
        [{ endpoint := "admin/datastore/" ++ pyStrOf ds },
         { endpoint := "status/datastore-usage" }]) ∧
    (∀ (ds : Json) (ck : List (String × Json)) (u : Json),
      (asItems u).find? (Pbs.storeMatches ds) = none →
      ∃ j, (Pbs.get_datastore_status ds (.obj ck) (.obj [("data", u)])).1 = .ok j ∧
        j.lookup "total_bytes" = some (.num 0) ∧
        j.lookup "used_bytes" = some (.num 0) ∧
        j.lookup "available_bytes" = some (.num 0) ∧
        j.lookup "percent_used" = some (.num 0)) ∧
    (∀ (t1 u1 t2 u2 : ℚ),
      (Pbs.get_datastore_status (.str "ds1") (.obj [])
        (.obj [("data", .arr [
          .obj [("store", .str "ds1"), ("total", .num t1), ("used", .num u1)],
          .obj [("store", .str "ds1"), ("total", .num t2), ("used", .num u2)]])])).1 =
      .ok (.obj [
        ("datastore", .str "ds1"),
        ("path", .str ""),
        ("comment", .str ""),
        ("total_bytes", .num t1),
        ("used_bytes", .num u1),
        ("available_bytes", .num 0),
        ("percent_used", .num (round2 (u1 / max t1 1 * 100))),
        ("gc_schedule", .str ""),
        ("prune_schedule", .str "")])) := by
  refine ⟨?_, ?_, fun t1 u1 t2 u2 => rfl⟩
  · intro ds conf usage j h
    unfold Pbs.get_datastore_status at h ⊢
    cases h1 : Pbs.unwrapData conf with
    | error e =>
      rw [h1] at h
      simp at h
    | ok d0 =>
      rw [h1] at h
      cases h2 : Pbs.unwrapData usage with
      | error e => rw [h2] at h
      | ok us => rfl
  · intro ds ck u hf
    have hz : round2 ((0 : ℚ) / max 0 1 * 100) = 0 := by
      have h : ((0 : ℚ) / max 0 1 * 100) = ((0 : ℤ) : ℚ) := by norm_num
      rw [h, round2_intCast]
      norm_num
    have hz0 : round2 (0 : ℚ) = 0 := by
      have h : round2 (((0 : ℤ) : ℚ)) = ((0 : ℤ) : ℚ) := by
        rw [round2_intCast]
      simpa using h
    unfold Pbs.get_datastore_status
    simp only [Pbs.unwrapData, Json.lookup, List.lookup, Option.getD]
    simp [hf, jget, Json.lookup, toNumE, bind, Except.bind, pure, Except.pure, hz, hz0,
      List.lookup]

/-- C9 (witness): the theorem applied at concrete inputs. -/
theorem C9_witness :
    (Pbs.get_datastore_status (.str "ds1") (.obj [])
      (.obj [("data", .arr [.obj [("store", .str "other")]])])).2 =
      [{ endpoint := "admin/datastore/ds1" }, { endpoint := "status/datastore-usage" }] ∧
    (∃ j, (Pbs.get_datastore_status (.str "ds1") (.obj [])
        (.obj [("data", .arr [.obj [("store", .str "other")]])])).1 = .ok j ∧
      j.lookup "total_bytes" = some (.num 0) ∧
      j.lookup "used_bytes" = some (.num 0) ∧
      j.lookup "available_bytes" = some (.num 0) ∧
      j.lookup "percent_used" = some (.num 0)) :=
  ⟨C9_datastore_status.1 (.str "ds1") (.obj [])
      (.obj [("data", .arr [.obj [("store", .str "other")]])]) _
      (C9_datastore_status.2.1 (.str "ds1") []
        (.arr [.obj [("store", .str "other")]]) rfl).choose_spec.1,
   C9_datastore_status.2.1 (.str "ds1") [] (.arr [.obj [("store", .str "other")]]) rfl⟩

/-- C10.  The service name given to `restart_service` is matched
against the allow-list exactly, with no trimming or case folding:
`"HTTPD"` and `" httpd"` are rejected even though the dispatcher's
non-blank check passes them through, while the command name itself is
lower-cased and trimmed before lookup. -/
theorem C10_service_exact_match :
    (∀ resp : Json, Whm.restart_service "HTTPD" resp =
      (.error (.valueError ("Service \x27HTTPD\x27 not allowed. Valid: " ++
        joinComma Whm.allowedSorted)), [])) ∧
    (∀ resps : List Json,
      Whm.execute_command "restart_service" [("service", .str " httpd")] resps =
      (.error (.valueError ("Service \x27 httpd\x27 not allowed. Valid: " ++
        joinComma Whm.allowedSorted)), [])) ∧
    (∀ resps : List Json,
      Whm.execute_command " RESTART_SERVICE " [("service", .str "httpd")] resps =
      Whm.execute_command "restart_service" [("service", .str "httpd")] resps) ∧
    (∀ resps : List Json,
      (Whm.execute_command "restart_service" [("service", .str "httpd")] resps).2 =
      [{ endpoint := "restartservice", params := [("service", .str "httpd")] }]) ∧
    (∀ s : String, s ∉ Whm.allowedServices → ∀ resp : Json,
      (Whm.restart_service s resp).2 = []) := by
  refine ⟨fun resp => rfl, fun resps => rfl, fun resps => rfl, fun resps => rfl, ?_⟩
  intro s h resp
  simp [Whm.restart_service, h]

/-- C10 (witness): the exact-match theorem applied at `"HTTPD"`. -/
theorem C10_witness :
    (Whm.restart_service "HTTPD" .null).2 = [] :=
  C10_service_exact_match.2.2.2.2 "HTTPD" (by decide) .null
